import Mathlib

/-! # searchGPT page controller

A shallow embedding of `src/website/static/index.js`, the script that drives the
search page: the form's submit handler (lines 17-57), the search request's success
and error callbacks (lines 35-50), and the global function `refresh_progress`
(lines 2-16) with its own two callbacks.

The page is a list of elements in document order.  A jQuery object built from the
selector `'#x'` holds at most the first element whose identifier is `x`; setters on
an empty jQuery object do nothing, `.val()` on it is `undefined`, and indexing it
with `[0]` gives `undefined`, so that reading or writing a property of the result
raises a `TypeError`.  Regions are laid out side by side.  Every call with an effect
outside the script (a DOM write, a request, a timer, a console line) is appended to a
trace, which gives the order of effects.

Three things the script leans on are decided outside it, and are modelled as such.
The selector of line 36 is the string `'#' + response.id`: for a plain token jQuery
takes the element by its identifier, for the empty identifier the selector `'#'` is
a syntax error, and any other string goes to the selector engine, which is a
parameter (`Browser.select`).  The call `.html(fragment)` hands the fragment to the
HTML parser: the region then reads back the parser's serialisation, and the scripts
the fragment carries are run; the parser is a parameter too (`Browser.parse`), and a
script is given by what it does to the page.  The bare name `response` of line 45 is
looked up on the global object, where it finds a global variable bound by other code
(the script of a fragment, say) or else an element the browser exposes there, by
identifier and, for some tags, by name.

Line 1 runs the script when the document is ready, line 2 assigns the global
`refresh_progress` and line 17 binds the handler to the form, in that order; the
handler therefore always finds `refresh_progress` bound to the function of lines
2-16, and `setTimeout` receives that function itself.
-/

namespace SearchGPT

/-! ## Data model -/

/-- The JavaScript values the script passes around. -/
inductive JSVal
  | undefined
  | str (s : String)
  | bool (b : Bool)
  | obj (props : List (String × String))
deriving DecidableEq, Repr

/-- One element of the page, with the attributes the script reads or writes. -/
structure Elem where
  tag : String
  id : String
  name : String
  value : String
  checked : Bool
  disabled : Bool
  classes : List String
  hidden : Bool
  html : String
deriving DecidableEq, Repr

/-- The exceptions a statement of the script can raise. -/
inductive JSError
  | typeError
  | referenceError (name : String)
  | syntaxError
deriving DecidableEq, Repr

/-- How a function body ended. -/
inductive Completion
  | normal
  | threw (e : JSError)
deriving DecidableEq, Repr

/-- The `success` functions given to `$.ajax` (lines 35-42 and 9-11). -/
inductive SuccessCallback
  | searchSuccess
  | progressSuccess
deriving DecidableEq, Repr

/-- The `error` functions given to `$.ajax` (lines 43-50 and 12-14). -/
inductive ErrorCallback
  | searchError
  | progressError
deriving DecidableEq, Repr

/-- The settings object of one `$.ajax` call. -/
structure Request where
  url : String
  method : String
  data : List (String × JSVal)
  success : SuccessCallback
  error : ErrorCallback
deriving DecidableEq, Repr

/-- The functions handed to `setTimeout`; the script has one. -/
inductive TimerCallback
  | refresh_progress
deriving DecidableEq, Repr

/-- A pending timer: `setTimeout` makes it with `repeating := false`. -/
structure Timer where
  callback : TimerCallback
  delay : Nat
  repeating : Bool
deriving DecidableEq, Repr

/-- The calls of the script that act on the page, the network, the timer queue or
the console, in the order they are made. -/
inductive Effect
  | preventDefault
  | disabledSet (ident : String) (b : Bool)
  | classAdded (ident c : String)
  | classRemoved (ident c : String)
  | hideCalled (ident : String)
  | showCalled (ident : String)
  | htmlSet (ident fragment : String)
  | ajaxSent (r : Request)
  | timeoutSet (cb : TimerCallback) (delay : Nat)
  | logged (msg : String)
deriving DecidableEq, Repr

/-- The page together with the browser state the script touches.  The field `globals`
holds the global variables bound by code other than this script, such as the script of
a fragment; an object is given by its string-valued properties. -/
structure Page where
  elems : List Elem
  timers : List Timer
  inflight : List Request
  trace : List Effect
  globals : List (String × JSVal) := []
deriving DecidableEq, Repr

/-- The submit event; `preventDefault` sets its flag. -/
structure SubmitEvent where
  defaultPrevented : Bool
deriving DecidableEq, Repr

/-- The body of a `/search` response. -/
structure SearchResponse where
  id : String
  html : String
  explain_html : String
deriving DecidableEq, Repr

/-- The body of a `/progress` response. -/
structure ProgressResponse where
  html : String
deriving DecidableEq, Repr

/-- What the HTML parser makes of a fragment: the content the region reads back once
the fragment is in it, and the scripts the fragment carries, in document order, each
given by what running it does to the page. -/
structure Parsed where
  content : String
  scripts : List (Page → Page)

/-- What the selector engine makes of a selector string: a syntax error, or the
positions in the document of the elements it matches, in document order. -/
inductive Selection
  | syntaxError
  | matched (positions : List Nat)
deriving DecidableEq, Repr

/-- The two services of the browser and of jQuery that the page model does not
determine: the HTML parser, by the tag of the element written into and the fragment,
and the selector engine, by the elements of the document and the selector string. -/
structure Browser where
  parse : String → String → Parsed
  select : List Elem → String → Selection

/-- The jQuery object of a selector `'#' + ident`: the element taken by identifier, or
the elements the selector engine matched. -/
inductive JQuery
  | byIdent (ident : String)
  | atPositions (positions : List Nat)
deriving DecidableEq, Repr

/-! ## jQuery and browser primitives -/

/-- The element of `$('#ident')`, if any: the first one carrying the identifier. -/
def byId (p : Page) (ident : String) : Option Elem :=
  p.elems.find? (fun e => decide (e.id = ident))

/-- The element `$('input[name="n"]')[0]`, if any. -/
def inputByName (p : Page) (n : String) : Option Elem :=
  p.elems.find? (fun e => decide (e.tag = "input") && decide (e.name = n))

/-- Apply `f` to the first element carrying the identifier. -/
def modifyById (ident : String) (f : Elem → Elem) : List Elem → List Elem
  | [] => []
  | e :: es => if e.id = ident then f e :: es else e :: modifyById ident f es

/-- Append one effect to the trace. -/
def emit (x : Effect) (p : Page) : Page :=
  { p with trace := p.trace ++ [x] }

/-- Rewrite the element of `$('#ident')`, leaving everything else as it is. -/
def modify (ident : String) (f : Elem → Elem) (p : Page) : Page :=
  { p with elems := modifyById ident f p.elems }

/-- The call `$('#ident').val()`. -/
def val (p : Page) (ident : String) : JSVal :=
  match byId p ident with
  | some e => JSVal.str e.value
  | none => JSVal.undefined

/-- Run the scripts of a fragment, in order. -/
def runScripts (scripts : List (Page → Page)) (p : Page) : Page :=
  scripts.foldl (fun q script => script q) p

/-- The write of `$('#ident').html(fragment)`: the element reads back what the parser
made of the fragment. -/
def writeHtml (br : Browser) (ident fragment : String) (p : Page) : Page :=
  emit (.htmlSet ident fragment)
    (modify ident (fun e => { e with html := (br.parse e.tag fragment).content }) p)

/-- The call `$('#ident').html(fragment)`, for a plain token `ident`: nothing happens on
an empty jQuery object; otherwise the fragment is written and then its scripts run. -/
def setHtml (br : Browser) (ident fragment : String) (p : Page) : Page :=
  match byId p ident with
  | none => emit (.htmlSet ident fragment) p
  | some e => runScripts (br.parse e.tag fragment).scripts (writeHtml br ident fragment p)

/-- Apply `f` to the elements at the given positions; `n` is the position of the head. -/
def modifyAt (positions : List Nat) (f : Elem → Elem) : Nat → List Elem → List Elem
  | _, [] => []
  | n, e :: es => (if n ∈ positions then f e else e) :: modifyAt positions f (n + 1) es

/-- The first element of a jQuery object given by positions. -/
def firstAt (positions : List Nat) (es : List Elem) : Option Elem :=
  positions.findSome? (fun i => es[i]?)

/-- The call `.html(fragment)` on the jQuery object holding the elements at the given
positions; `selector` is only recorded in the trace. -/
def htmlAt (br : Browser) (positions : List Nat) (selector fragment : String) (p : Page) :
    Page :=
  match firstAt positions p.elems with
  | none => emit (.htmlSet selector fragment) p
  | some e =>
    runScripts (br.parse e.tag fragment).scripts
      (emit (.htmlSet selector fragment)
        { p with
          elems := modifyAt positions
            (fun x => { x with html := (br.parse x.tag fragment).content }) 0 p.elems })

/-- A plain token: one or more of the characters `A-Z`, `a-z`, `0-9`, `_` and `-`.  For
these jQuery does not consult the selector engine. -/
def isToken (s : String) : Bool :=
  !s.data.isEmpty && s.data.all (fun c => c.isAlphanum || c == '_' || c == '-')

/-- The call `$('#' + ident)`. -/
def jqHash (br : Browser) (p : Page) (ident : String) : Except JSError JQuery :=
  if isToken ident then .ok (.byIdent ident)
  else if ident = "" then .error .syntaxError
  else
    match br.select p.elems ("#" ++ ident) with
    | .syntaxError => .error .syntaxError
    | .matched positions => .ok (.atPositions positions)

/-- The call `.html(fragment)` on the result of `$('#' + ident)`. -/
def jqHtml (br : Browser) (target : JQuery) (ident fragment : String) (p : Page) : Page :=
  match target with
  | .byIdent i => setHtml br i fragment p
  | .atPositions positions => htmlAt br positions ("#" ++ ident) fragment p

/-- Whether the bare name resolves on the global object through the elements of the
page: an element with that identifier, or an `embed`, `form`, `img`, `object`, `iframe`
or `frame` element with that name (a frame being of the page's origin). -/
def windowNamed (p : Page) (name : String) : Bool :=
  decide (name ≠ "") &&
    p.elems.any (fun e =>
      decide (e.id = name) ||
        (decide (e.tag ∈ ["embed", "form", "img", "object", "iframe", "frame"]) &&
          decide (e.name = name)))

/-- The value of a global variable bound by code other than this script. -/
def globalValue (p : Page) (name : String) : Option JSVal :=
  (p.globals.find? (fun g => decide (g.1 = name))).map (fun g => g.2)

/-- The bare name is bound neither as a global variable nor through an element of the
page. -/
def nameUnbound (p : Page) (name : String) : Bool :=
  (globalValue p name).isNone && !windowNamed p name

/-- The assignment `$('#ident')[0].disabled = b`, for an element that exists. -/
def setDisabled (ident : String) (b : Bool) (p : Page) : Page :=
  emit (.disabledSet ident b) (modify ident (fun e => { e with disabled := b }) p)

/-- The call `$('#ident').addClass(c)`. -/
def addClass (ident c : String) (p : Page) : Page :=
  emit (.classAdded ident c) (modify ident (fun e =>
    { e with classes := if c ∈ e.classes then e.classes else e.classes ++ [c] }) p)

/-- The call `$('#ident').removeClass(c)`. -/
def removeClass (ident c : String) (p : Page) : Page :=
  emit (.classRemoved ident c) (modify ident (fun e =>
    { e with classes := e.classes.filter (fun d => decide (d ≠ c)) }) p)

/-- The call `$('#ident').hide()`. -/
def jqHide (ident : String) (p : Page) : Page :=
  emit (.hideCalled ident) (modify ident (fun e => { e with hidden := true }) p)

/-- The call `$('#ident').show()`. -/
def jqShow (ident : String) (p : Page) : Page :=
  emit (.showCalled ident) (modify ident (fun e => { e with hidden := false }) p)

/-- The call `$.ajax(settings)`: the request leaves and waits for its response. -/
def ajax (r : Request) (p : Page) : Page :=
  emit (.ajaxSent r) { p with inflight := p.inflight ++ [r] }

/-- The call `setTimeout(cb, delay)`. -/
def setTimeout (cb : TimerCallback) (delay : Nat) (p : Page) : Page :=
  emit (.timeoutSet cb delay)
    { p with timers := p.timers ++ [{ callback := cb, delay := delay, repeating := false }] }

/-- The call `console.log(msg)`. -/
def consoleLog (msg : String) (p : Page) : Page :=
  emit (.logged msg) p

/-! ## The script -/

/-- The settings of the request of lines 3-15. -/
def progressRequest (request_id : JSVal) : Request :=
  { url := "/progress", method := "GET",
    data := [("request_id", request_id)],
    success := .progressSuccess, error := .progressError }

/-- Lines 2-16: the function `refresh_progress`. -/
def refresh_progress (p : Page) : Page :=
  ajax (progressRequest (val p "request_id")) p

/-- Lines 9-11: the `success` function of the progress request. -/
def progressSuccess (br : Browser) (response : ProgressResponse) (p : Page) : Page :=
  setHtml br "search-result-step" response.html p

/-- Lines 12-14: the `error` function of the progress request. -/
def progressError (error : String) (p : Page) : Page :=
  consoleLog error p

/-- Lines 38-41, shared by the two callbacks of the search request. -/
def cleanup (p : Page) : Page × Completion :=
  match byId p "search-btn" with
  | none => (p, .threw .typeError)
  | some _ =>
    let p := setDisabled "search-btn" false p
    let p := removeClass "search-result-spinner" "d-flex" p
    let p := jqShow "search-results" p
    let p := jqShow "explain_results" p
    (p, .normal)

/-- Lines 35-42: the `success` function of the search request.  A selector the engine
rejects makes line 36 throw before anything is written. -/
def searchSuccess (br : Browser) (response : SearchResponse) (p : Page) :
    Page × Completion :=
  match jqHash br p response.id with
  | .error e => (p, .threw e)
  | .ok target =>
    let p := jqHtml br target response.id response.html p
    let p := setHtml br "explain_results" response.explain_html p
    cleanup p

/-- Lines 43-50: the `error` function of the search request.  No binding of the name
`response` is in scope and the script declares no global of that name, so the name is
looked up on the global object.  A global variable bound by other code comes first:
reading a property of `undefined` raises a `TypeError`; an object with a property
`explain_html` has that fragment written by line 45; any other value has no such
property, and the call `.html(undefined)` writes nothing.  Failing that, the page may
expose an element (or a collection of them) under the name, which has no such property
either.  In these cases lines 46-49 run (they are lines 38-41 again).  When the name is
bound in neither way, the argument of line 45 raises a `ReferenceError` and lines 46-49
are not reached. -/
def searchError (br : Browser) (error : String) (p : Page) : Page × Completion :=
  let p := consoleLog error p
  match globalValue p "response" with
  | some .undefined => (p, .threw .typeError)
  | some (.obj props) =>
    match (props.find? (fun kv => decide (kv.1 = "explain_html"))).map (fun kv => kv.2) with
    | some fragment => cleanup (setHtml br "explain_results" fragment p)
    | none => cleanup p
  | some _ => cleanup p
  | none =>
    if windowNamed p "response" then cleanup p
    else (p, .threw (.referenceError "response"))

/-- Lines 54-56: the loop `for (let i = 0; i < 10; i++)`, entered with counter `i`. -/
def scheduleProgress (i : Nat) (p : Page) : Page :=
  if i < 10 then
    scheduleProgress (i + 1) (setTimeout .refresh_progress (1000 * i) p)
  else p
termination_by 10 - i

/-- The settings of the request of lines 24-51. -/
def searchRequest (q key1 key2 : JSVal) (use_source : Bool) (provider model : JSVal) :
    Request :=
  { url := "/search", method := "POST",
    data := [("q", q),
             ("bing_search_subscription_key", key1),
             ("openai_api_key", key2),
             ("is_use_source", JSVal.bool use_source),
             ("llm_service_provider", provider),
             ("llm_model", model)],
    success := .searchSuccess, error := .searchError }

/-- What one run of the submit handler leaves behind. -/
structure SubmitResult where
  event : SubmitEvent
  page : Page
  completion : Completion
deriving DecidableEq, Repr

/-- Lines 17-57: the handler bound to the form's `submit` event. -/
def submitHandler (event : SubmitEvent) (p : Page) : SubmitResult :=
  let event := { event with defaultPrevented := true }
  let p := emit .preventDefault p
  let search_text := val p "form1"
  match byId p "search-btn" with
  | none => ⟨event, p, .threw .typeError⟩
  | some _ =>
    let p := setDisabled "search-btn" true p
    let p := addClass "search-result-spinner" "d-flex" p
    let p := jqHide "search-results" p
    let p := jqHide "explain_results" p
    match inputByName p "is_use_source" with
    | none => ⟨event, p, .threw .typeError⟩
    | some box =>
      let p := ajax (searchRequest search_text
                      (val p "bing_search_subscription_key")
                      (val p "openai_api_key")
                      box.checked
                      (val p "llm_service_provider")
                      (val p "llm_model")) p
      let p := scheduleProgress 0 p
      ⟨event, p, .normal⟩

/-! ## The event loop -/

/-- What can happen to the page next. -/
inductive Action
  | submit
  | timerFires (k : Nat)
  | searchSucceeds (k : Nat) (r : SearchResponse)
  | searchFails (k : Nat) (error : String)
  | progressSucceeds (k : Nat) (r : ProgressResponse)
  | progressFails (k : Nat) (error : String)
  | userTypes (ident v : String)
  | userToggles (ident : String) (b : Bool)
deriving DecidableEq, Repr

/-- The user edits the value of a field. -/
def typeInto (ident v : String) (p : Page) : Page :=
  modify ident (fun e => { e with value := v }) p

/-- The user sets a checkbox. -/
def toggle (ident : String) (b : Bool) (p : Page) : Page :=
  modify ident (fun e => { e with checked := b }) p

/-- The function a timer runs. -/
def runTimer : TimerCallback → Page → Page
  | .refresh_progress, p => refresh_progress p

/-- One turn of the event loop.  A timer that fires is the `k`-th pending one; a
one-shot timer leaves the queue when it fires.  A response settles the `k`-th request
in flight, and runs the callback that request carries. -/
def step (br : Browser) (p : Page) : Action → Page
  | .submit => (submitHandler ⟨false⟩ p).page
  | .timerFires k =>
    match p.timers[k]? with
    | none => p
    | some t =>
      runTimer t.callback
        { p with timers := if t.repeating then p.timers else p.timers.eraseIdx k }
  | .searchSucceeds k r =>
    match p.inflight[k]? with
    | none => p
    | some req =>
      match req.success with
      | .searchSuccess =>
        (searchSuccess br r { p with inflight := p.inflight.eraseIdx k }).1
      | .progressSuccess => p
  | .searchFails k error =>
    match p.inflight[k]? with
    | none => p
    | some req =>
      match req.error with
      | .searchError =>
        (searchError br error { p with inflight := p.inflight.eraseIdx k }).1
      | .progressError => p
  | .progressSucceeds k r =>
    match p.inflight[k]? with
    | none => p
    | some req =>
      match req.success with
      | .progressSuccess =>
        progressSuccess br r { p with inflight := p.inflight.eraseIdx k }
      | .searchSuccess => p
  | .progressFails k error =>
    match p.inflight[k]? with
    | none => p
    | some req =>
      match req.error with
      | .progressError => progressError error { p with inflight := p.inflight.eraseIdx k }
      | .searchError => p
  | .userTypes ident v => typeInto ident v p
  | .userToggles ident b => toggle ident b p

/-- A run: the actions taken in order. -/
def run (br : Browser) (p : Page) (acts : List Action) : Page :=
  acts.foldl (step br) p

/-! ## Observations -/

/-- The `disabled` flag of the submit control. -/
def btnDisabled (p : Page) : Option Bool :=
  (byId p "search-btn").map (fun e => e.disabled)

/-- The classes of the busy indicator. -/
def spinnerClasses (p : Page) : Option (List String) :=
  (byId p "search-result-spinner").map (fun e => e.classes)

/-- Whether the region is hidden. -/
def hiddenOf (p : Page) (ident : String) : Option Bool :=
  (byId p ident).map (fun e => e.hidden)

/-- The content of the region. -/
def htmlOf (p : Page) (ident : String) : Option String :=
  (byId p ident).map (fun e => e.html)

/-- The elements the submit handler dereferences with `[0]`: the submit control and
the source-usage checkbox. -/
def hasControls (p : Page) : Prop :=
  (byId p "search-btn").isSome = true ∧ (inputByName p "is_use_source").isSome = true

instance (p : Page) : Decidable (hasControls p) := by
  unfold hasControls; infer_instance

/-- The regions the submit handler and the search callbacks show and hide: the busy
indicator, the result region and the explanation region. -/
def hasRegions (p : Page) : Prop :=
  (byId p "search-result-spinner").isSome = true ∧
  (byId p "search-results").isSome = true ∧
  (byId p "explain_results").isSome = true

instance (p : Page) : Decidable (hasRegions p) := by
  unfold hasRegions; infer_instance

/-- The actions other than a submission and a successful search response: timers
firing, progress responses, failed searches and the user editing the form. -/
def quiet : Action → Bool
  | .submit => false
  | .searchSucceeds _ _ => false
  | _ => true

/-- The fragment carries no script, whatever element it is written into. -/
def inert (br : Browser) (fragment : String) : Prop :=
  ∀ tag, (br.parse tag fragment).scripts = []

/-- The browser reads the fragment back as it was written, whatever element it is
written into. -/
def readsBack (br : Browser) (fragment : String) : Prop :=
  ∀ tag, (br.parse tag fragment).content = fragment

/-- The action brings no script to the page through a progress response. -/
def scriptFree (br : Browser) : Action → Prop
  | .progressSucceeds _ r => inert br r.html
  | _ => True

/-- The actions that can come between a submission and its successful response: any
but a successful search response, progress fragments carrying no script. -/
def calm (br : Browser) : Action → Prop
  | .searchSucceeds _ _ => False
  | .progressSucceeds _ r => inert br r.html
  | _ => True

/-- The page while a search is under way: the submit control disabled, the busy
indicator with its d-flex class, the result and explanation regions hidden. -/
def busy (p : Page) : Prop :=
  btnDisabled p = some true ∧
  (∃ cs, spinnerClasses p = some cs ∧ "d-flex" ∈ cs) ∧
  hiddenOf p "search-results" = some true ∧
  hiddenOf p "explain_results" = some true

/-- What the global object's named lookup depends on in an element. -/
def nameKey (e : Elem) : String × String × String :=
  (e.id, e.tag, e.name)

/-- A page with every element the script names, before any submission. -/
def samplePage : Page :=
  { elems :=
      [ ⟨"input", "request_id", "request_id", "req-1", false, false, [], false, ""⟩,
        ⟨"input", "form1", "q", "lean", false, false, [], false, ""⟩,
        ⟨"input", "bing_search_subscription_key", "bing", "k1", false, false, [], false, ""⟩,
        ⟨"input", "openai_api_key", "openai", "k2", false, false, [], false, ""⟩,
        ⟨"input", "is_use_source", "is_use_source", "on", true, false, [], false, ""⟩,
        ⟨"select", "llm_service_provider", "provider", "openai", false, false, [], false, ""⟩,
        ⟨"select", "llm_model", "model", "gpt", false, false, [], false, ""⟩,
        ⟨"button", "search-btn", "", "", false, false, [], false, "Search"⟩,
        ⟨"div", "search-result-spinner", "", "", false, false, ["d-none"], false, ""⟩,
        ⟨"div", "search-result-step", "", "", false, false, [], false, ""⟩,
        ⟨"div", "search-results", "", "", false, false, [], false, "old"⟩,
        ⟨"div", "explain_results", "", "", false, false, [], false, "old"⟩ ],
    timers := [], inflight := [], trace := [] }

/-- The sample page right after one submission: the submit control disabled, the busy
indicator shown, both regions hidden, the search request in flight and the ten polls
pending. -/
def busyPage : Page :=
  { elems :=
      [ ⟨"input", "request_id", "request_id", "req-1", false, false, [], false, ""⟩,
        ⟨"input", "form1", "q", "lean", false, false, [], false, ""⟩,
        ⟨"input", "bing_search_subscription_key", "bing", "k1", false, false, [], false, ""⟩,
        ⟨"input", "openai_api_key", "openai", "k2", false, false, [], false, ""⟩,
        ⟨"input", "is_use_source", "is_use_source", "on", true, false, [], false, ""⟩,
        ⟨"select", "llm_service_provider", "provider", "openai", false, false, [], false, ""⟩,
        ⟨"select", "llm_model", "model", "gpt", false, false, [], false, ""⟩,
        ⟨"button", "search-btn", "", "", false, true, [], false, "Search"⟩,
        ⟨"div", "search-result-spinner", "", "", false, false, ["d-none", "d-flex"], false, ""⟩,
        ⟨"div", "search-result-step", "", "", false, false, [], false, ""⟩,
        ⟨"div", "search-results", "", "", false, false, [], true, "old"⟩,
        ⟨"div", "explain_results", "", "", false, false, [], true, "old"⟩ ],
    timers :=
      [ ⟨.refresh_progress, 0, false⟩, ⟨.refresh_progress, 1000, false⟩,
        ⟨.refresh_progress, 2000, false⟩, ⟨.refresh_progress, 3000, false⟩,
        ⟨.refresh_progress, 4000, false⟩, ⟨.refresh_progress, 5000, false⟩,
        ⟨.refresh_progress, 6000, false⟩, ⟨.refresh_progress, 7000, false⟩,
        ⟨.refresh_progress, 8000, false⟩, ⟨.refresh_progress, 9000, false⟩ ],
    inflight :=
      [ searchRequest (.str "lean") (.str "k1") (.str "k2") true (.str "openai") (.str "gpt") ],
    trace :=
      [ .preventDefault, .disabledSet "search-btn" true,
        .classAdded "search-result-spinner" "d-flex", .hideCalled "search-results",
        .hideCalled "explain_results",
        .ajaxSent
          (searchRequest (.str "lean") (.str "k1") (.str "k2") true (.str "openai") (.str "gpt")),
        .timeoutSet .refresh_progress 0, .timeoutSet .refresh_progress 1000,
        .timeoutSet .refresh_progress 2000, .timeoutSet .refresh_progress 3000,
        .timeoutSet .refresh_progress 4000, .timeoutSet .refresh_progress 5000,
        .timeoutSet .refresh_progress 6000, .timeoutSet .refresh_progress 7000,
        .timeoutSet .refresh_progress 8000, .timeoutSet .refresh_progress 9000 ] }

/-- The busy page after a second submission: the elements as they were, a second
search request in flight, ten more polls pending. -/
def twicePage : Page :=
  { elems := busyPage.elems,
    timers := busyPage.timers ++ busyPage.timers,
    inflight := busyPage.inflight ++ busyPage.inflight,
    trace := busyPage.trace ++ busyPage.trace }

/-- The busy page with one more element, whose identifier is response. -/
def namedPage : Page :=
  { busyPage with
    elems := busyPage.elems ++ [⟨"div", "response", "", "", false, false, [], false, ""⟩] }

/-- The sample page with one more region, whose identifier is res.v1. -/
def dottedPage : Page :=
  { samplePage with
    elems := samplePage.elems ++ [⟨"div", "res.v1", "", "", false, false, [], false, "old"⟩] }

/-- A fragment whose script enables the submit control. -/
def enablingFragment : String :=
  "<script>document.getElementById('search-btn').disabled=false</script>"

/-- A fragment whose script rewrites the status region. -/
def rewritingFragment : String :=
  "<script>document.getElementById('search-result-step').innerHTML='done'</script>"

/-- The parser on the fragments used in the examples: an unclosed span is read back
closed, the script of the enabling fragment sets the flag of the submit control, the
script of the rewriting fragment sets the content of the status region, and any other
fragment used below is plain markup in serialised form. -/
def sampleParse (fragment : String) : Parsed :=
  if fragment = "<span>50%" then ⟨"<span>50%</span>", []⟩
  else if fragment = enablingFragment then
    ⟨fragment, [fun p => modify "search-btn" (fun e => { e with disabled := false }) p]⟩
  else if fragment = rewritingFragment then
    ⟨fragment, [fun p => modify "search-result-step" (fun e => { e with html := "done" }) p]⟩
  else ⟨fragment, []⟩

/-- The selector engine on the selectors used in the examples: the selector #res.v1
matches the elements with identifier res and class v1. -/
def sampleSelect (es : List Elem) (selector : String) : Selection :=
  if selector = "#res.v1" then
    .matched ((List.range es.length).filter (fun i =>
      match es[i]? with
      | some e => decide (e.id = "res") && decide ("v1" ∈ e.classes)
      | none => false))
  else .syntaxError

/-- The browser of the examples. -/
def sampleBrowser : Browser :=
  { parse := fun _ fragment => sampleParse fragment, select := sampleSelect }

/-! ## Intermediate pages -/

/-- The page after lines 18-23, when the submit control exists. -/
def afterPrologue (p : Page) : Page :=
  jqHide "explain_results" (jqHide "search-results"
    (addClass "search-result-spinner" "d-flex"
      (setDisabled "search-btn" true (emit .preventDefault p))))

/-- The ten timers of lines 54-56. -/
def pollTimers : List Timer :=
  (List.range 10).map
    (fun i => { callback := .refresh_progress, delay := 1000 * i, repeating := false })

/-- The request of lines 24-51 on page `p` whose checkbox is `box`. -/
def searchRequestOf (p : Page) (box : Elem) : Request :=
  searchRequest (val p "form1") (val p "bing_search_subscription_key") (val p "openai_api_key")
    box.checked (val p "llm_service_provider") (val p "llm_model")

/-- The page after the writes of lines 36-37, the scripts of the fragments left aside. -/
def afterContent (br : Browser) (r : SearchResponse) (p : Page) : Page :=
  writeHtml br "explain_results" r.explain_html (writeHtml br r.id r.html p)

/-- The page after lines 38-41, run on page `q`. -/
def afterCleanup (q : Page) : Page :=
  jqShow "explain_results" (jqShow "search-results"
    (removeClass "search-result-spinner" "d-flex" (setDisabled "search-btn" false q)))

/-- What a poll must leave alone: the submit control's flag, the busy indicator's
classes, the visibility and content of the result and explanation regions, and the
pending timers. -/
def sameOutsideStatus (p q : Page) : Prop :=
  btnDisabled q = btnDisabled p ∧
  spinnerClasses q = spinnerClasses p ∧
  hiddenOf q "search-results" = hiddenOf p "search-results" ∧
  hiddenOf q "explain_results" = hiddenOf p "explain_results" ∧
  htmlOf q "search-results" = htmlOf p "search-results" ∧
  htmlOf q "explain_results" = htmlOf p "explain_results" ∧
  q.timers = p.timers

instance (p q : Page) : Decidable (sameOutsideStatus p q) := by
  unfold sameOutsideStatus; infer_instance

/-! ## Lookup after an update -/

theorem find_modifyById (i j : String) (f : Elem → Elem) (hf : ∀ e, (f e).id = e.id)
    (l : List Elem) :
    (modifyById i f l).find? (fun e => decide (e.id = j)) =
      if j = i then (l.find? (fun e => decide (e.id = j))).map f
      else l.find? (fun e => decide (e.id = j)) := by
  induction l with
  | nil => simp [modifyById]
  | cons e es ih =>
    by_cases hi : e.id = i
    · by_cases hj : j = i
      · subst hj
        simp [modifyById, hi, hf]
      · have hne : ¬ e.id = j := fun h => hj (h ▸ hi)
        have hne2 : ¬ (f e).id = j := by rw [hf]; exact hne
        rw [modifyById, if_pos hi, if_neg hj, List.find?_cons, List.find?_cons]
        simp [hne, hne2]
    · by_cases hj : e.id = j
      · have hji : ¬ j = i := fun h => hi (h ▸ hj)
        simp [modifyById, hi, hj, hji]
      · simp only [modifyById, hi, if_false, List.find?_cons, hj, decide_False, ih]

theorem find_modifyById_map {α : Type} (q : Elem → Bool) (g : Elem → α) (i : String)
    (f : Elem → Elem) (hq : ∀ e, q (f e) = q e) (hg : ∀ e, g (f e) = g e) (l : List Elem) :
    ((modifyById i f l).find? q).map g = (l.find? q).map g := by
  induction l with
  | nil => simp [modifyById]
  | cons e es ih =>
    by_cases hi : e.id = i
    · by_cases he : q e = true
      · simp [modifyById, hi, List.find?_cons, hq, he, hg]
      · simp [modifyById, hi, List.find?_cons, hq, he]
    · by_cases he : q e = true
      · simp [modifyById, hi, List.find?_cons, he]
      · simp [modifyById, hi, List.find?_cons, he, ih]

theorem byId_emit (x : Effect) (p : Page) (j : String) : byId (emit x p) j = byId p j := rfl

theorem inputByName_emit (x : Effect) (p : Page) (n : String) :
    inputByName (emit x p) n = inputByName p n := rfl

theorem byId_modify (i j : String) (f : Elem → Elem) (hf : ∀ e, (f e).id = e.id) (p : Page) :
    byId (modify i f p) j = if j = i then (byId p j).map f else byId p j :=
  find_modifyById i j f hf p.elems

theorem byId_modify_map {α : Type} (g : Elem → α) (i j : String) (f : Elem → Elem)
    (hf : ∀ e, (f e).id = e.id) (hg : ∀ e, g (f e) = g e) (p : Page) :
    (byId (modify i f p) j).map g = (byId p j).map g :=
  find_modifyById_map _ g i f (by intro e; simp [hf]) hg p.elems

theorem inputByName_modify_map {α : Type} (g : Elem → α) (i n : String) (f : Elem → Elem)
    (ht : ∀ e, (f e).tag = e.tag) (hn : ∀ e, (f e).name = e.name) (hg : ∀ e, g (f e) = g e)
    (p : Page) :
    (inputByName (modify i f p) n).map g = (inputByName p n).map g :=
  find_modifyById_map _ g i f (by intro e; simp [ht, hn]) hg p.elems

theorem val_congr (p q : Page) (j : String)
    (h : (byId q j).map (fun e => e.value) = (byId p j).map (fun e => e.value)) :
    val q j = val p j := by
  unfold val
  cases hq : byId q j <;> cases hp : byId p j <;> simp_all

/-! ## The submit handler, statement by statement -/

theorem byId_afterPrologue_map {α : Type} (g : Elem → α) (j : String) (p : Page)
    (h1 : ∀ (e : Elem) (b : Bool), g { e with disabled := b } = g e)
    (h2 : ∀ (e : Elem) (c : List String), g { e with classes := c } = g e)
    (h3 : ∀ (e : Elem) (b : Bool), g { e with hidden := b } = g e) :
    (byId (afterPrologue p) j).map g = (byId p j).map g := by
  simp only [afterPrologue, jqHide, addClass, setDisabled]
  rw [byId_emit, byId_modify_map g, byId_emit, byId_modify_map g, byId_emit, byId_modify_map g,
    byId_emit, byId_modify_map g, byId_emit]
  all_goals first
    | exact fun _ => rfl
    | exact fun e => h1 e _
    | exact fun e => h2 e _
    | exact fun e => h3 e _

theorem inputByName_afterPrologue_map {α : Type} (g : Elem → α) (n : String) (p : Page)
    (h1 : ∀ (e : Elem) (b : Bool), g { e with disabled := b } = g e)
    (h2 : ∀ (e : Elem) (c : List String), g { e with classes := c } = g e)
    (h3 : ∀ (e : Elem) (b : Bool), g { e with hidden := b } = g e) :
    (inputByName (afterPrologue p) n).map g = (inputByName p n).map g := by
  simp only [afterPrologue, jqHide, addClass, setDisabled]
  rw [inputByName_emit, inputByName_modify_map g, inputByName_emit, inputByName_modify_map g,
    inputByName_emit, inputByName_modify_map g, inputByName_emit, inputByName_modify_map g,
    inputByName_emit]
  all_goals first
    | exact fun _ => rfl
    | exact fun e => h1 e _
    | exact fun e => h2 e _
    | exact fun e => h3 e _

theorem val_afterPrologue (p : Page) (j : String) : val (afterPrologue p) j = val p j :=
  val_congr p _ j
    (byId_afterPrologue_map _ j p (fun _ _ => rfl) (fun _ _ => rfl) (fun _ _ => rfl))

theorem scheduleProgress_eq (p : Page) :
    scheduleProgress 0 p =
      { p with
        timers := p.timers ++ pollTimers,
        trace := p.trace ++
          (List.range 10).map (fun i => Effect.timeoutSet .refresh_progress (1000 * i)) } := by
  simp [scheduleProgress, setTimeout, emit, pollTimers, List.range, List.range.loop]

theorem submitHandler_eq (event : SubmitEvent) (p : Page) (h : hasControls p) :
    ∃ box, inputByName p "is_use_source" = some box ∧
      submitHandler event p =
        ⟨⟨true⟩, scheduleProgress 0 (ajax (searchRequestOf p box) (afterPrologue p)),
          .normal⟩ := by
  obtain ⟨hb, hc⟩ := h
  obtain ⟨btn, hbtn⟩ := Option.isSome_iff_exists.mp hb
  obtain ⟨box, hbox⟩ := Option.isSome_iff_exists.mp hc
  have hchk := inputByName_afterPrologue_map (fun e => e.checked) "is_use_source" p
    (fun _ _ => rfl) (fun _ _ => rfl) (fun _ _ => rfl)
  rw [hbox] at hchk
  cases hbox2 : inputByName (afterPrologue p) "is_use_source" with
  | none => rw [hbox2] at hchk; simp at hchk
  | some box2 =>
    rw [hbox2] at hchk
    simp only [Option.map_some', Option.some.injEq] at hchk
    refine ⟨box, hbox, ?_⟩
    have hbtn2 : byId (emit .preventDefault p) "search-btn" = some btn := hbtn
    unfold submitHandler
    simp only [hbtn2]
    change (match inputByName (afterPrologue p) "is_use_source" with
      | none => _
      | some box => _) = _
    rw [hbox2]
    have hv := val_afterPrologue p
    have hq : val (emit .preventDefault p) "form1" = val p "form1" := rfl
    simp only [afterPrologue] at hv
    simp only [searchRequestOf, hv, hq, hchk, afterPrologue]

theorem submitHandler_no_button (event : SubmitEvent) (p : Page)
    (h : byId p "search-btn" = none) :
    submitHandler event p = ⟨⟨true⟩, emit .preventDefault p, .threw .typeError⟩ := by
  have h2 : byId (emit .preventDefault p) "search-btn" = none := h
  unfold submitHandler
  simp only [h2]

theorem submitHandler_no_checkbox (event : SubmitEvent) (p : Page)
    (hb : (byId p "search-btn").isSome = true) (hc : inputByName p "is_use_source" = none) :
    submitHandler event p = ⟨⟨true⟩, afterPrologue p, .threw .typeError⟩ := by
  obtain ⟨btn, hbtn⟩ := Option.isSome_iff_exists.mp hb
  have hbtn2 : byId (emit .preventDefault p) "search-btn" = some btn := hbtn
  have hsome := inputByName_afterPrologue_map (fun _ => ()) "is_use_source" p
    (fun _ _ => rfl) (fun _ _ => rfl) (fun _ _ => rfl)
  rw [hc] at hsome
  have hc2 : inputByName (afterPrologue p) "is_use_source" = none := by
    cases hx : inputByName (afterPrologue p) "is_use_source" with
    | none => rfl
    | some b => rw [hx] at hsome; simp at hsome
  unfold submitHandler
  simp only [hbtn2]
  change (match inputByName (afterPrologue p) "is_use_source" with
    | none => _
    | some box => _) = _
  rw [hc2]
  rfl

theorem byId_modify_ne (i j : String) (f : Elem → Elem) (hf : ∀ e, (f e).id = e.id)
    (p : Page) (h : j ≠ i) : byId (modify i f p) j = byId p j := by
  rw [byId_modify i j f hf, if_neg h]

theorem byId_modify_self (i : String) (f : Elem → Elem) (hf : ∀ e, (f e).id = e.id)
    (p : Page) : byId (modify i f p) i = (byId p i).map f := by
  rw [byId_modify i i f hf, if_pos rfl]

theorem btnDisabled_afterPrologue (p : Page) :
    btnDisabled (afterPrologue p) = (btnDisabled p).map (fun _ => true) := by
  simp only [btnDisabled, afterPrologue, jqHide, addClass, setDisabled]
  rw [byId_emit, byId_modify_map, byId_emit, byId_modify_map, byId_emit, byId_modify_map,
    byId_emit, byId_modify_self, byId_emit, Option.map_map, Option.map_map]
  all_goals first
    | rfl
    | exact fun _ => rfl

theorem spinnerClasses_afterPrologue (p : Page) :
    spinnerClasses (afterPrologue p) =
      (spinnerClasses p).map
        (fun cs => if "d-flex" ∈ cs then cs else cs ++ ["d-flex"]) := by
  simp only [spinnerClasses, afterPrologue, jqHide, addClass, setDisabled]
  rw [byId_emit, byId_modify_map, byId_emit, byId_modify_map, byId_emit, byId_modify_self,
    Option.map_map, byId_emit, byId_modify_ne, byId_emit, Option.map_map]
  all_goals first
    | rfl
    | exact fun _ => rfl
    | decide

theorem hiddenOf_results_afterPrologue (p : Page) :
    hiddenOf (afterPrologue p) "search-results" =
      (hiddenOf p "search-results").map (fun _ => true) := by
  simp only [hiddenOf, afterPrologue, jqHide, addClass, setDisabled]
  rw [byId_emit, byId_modify_ne, byId_emit, byId_modify_self, Option.map_map,
    byId_emit, byId_modify_ne, byId_emit, byId_modify_ne, byId_emit, Option.map_map]
  all_goals first
    | rfl
    | exact fun _ => rfl
    | decide

theorem hiddenOf_explain_afterPrologue (p : Page) :
    hiddenOf (afterPrologue p) "explain_results" =
      (hiddenOf p "explain_results").map (fun _ => true) := by
  simp only [hiddenOf, afterPrologue, jqHide, addClass, setDisabled]
  rw [byId_emit, byId_modify_self, Option.map_map, byId_emit, byId_modify_ne,
    byId_emit, byId_modify_ne, byId_emit, byId_modify_ne, byId_emit, Option.map_map]
  all_goals first
    | rfl
    | exact fun _ => rfl
    | decide

/-- The three ways through the submit handler: line 20 throws, line 31 throws, or the
handler runs to its end. -/
theorem submitHandler_cases (event : SubmitEvent) (p : Page) :
    (byId p "search-btn" = none ∧
      submitHandler event p = ⟨⟨true⟩, emit .preventDefault p, .threw .typeError⟩) ∨
    ((byId p "search-btn").isSome = true ∧ inputByName p "is_use_source" = none ∧
      submitHandler event p = ⟨⟨true⟩, afterPrologue p, .threw .typeError⟩) ∨
    ((byId p "search-btn").isSome = true ∧
      ∃ box, inputByName p "is_use_source" = some box ∧
        submitHandler event p =
          ⟨⟨true⟩, scheduleProgress 0 (ajax (searchRequestOf p box) (afterPrologue p)),
            .normal⟩) := by
  cases hb : byId p "search-btn" with
  | none => exact Or.inl ⟨rfl, submitHandler_no_button event p hb⟩
  | some btn =>
    have hb2 : (byId p "search-btn").isSome = true := by rw [hb]; rfl
    cases hc : inputByName p "is_use_source" with
    | none => exact Or.inr (Or.inl ⟨rfl, rfl, submitHandler_no_checkbox event p hb2 hc⟩)
    | some box =>
      have hc2 : (inputByName p "is_use_source").isSome = true := by rw [hc]; rfl
      obtain ⟨box2, h1, h2⟩ := submitHandler_eq event p ⟨hb2, hc2⟩
      exact Or.inr (Or.inr ⟨rfl, box2, by rw [← hc, h1], h2⟩)

theorem trace_afterPrologue (p : Page) :
    (afterPrologue p).trace =
      p.trace ++ [.preventDefault, .disabledSet "search-btn" true,
        .classAdded "search-result-spinner" "d-flex", .hideCalled "search-results",
        .hideCalled "explain_results"] := by
  simp [afterPrologue, jqHide, addClass, setDisabled, emit, modify]

theorem byId_scheduleProgress (q : Page) (j : String) :
    byId (scheduleProgress 0 q) j = byId q j := by
  rw [scheduleProgress_eq]; rfl

theorem inputByName_scheduleProgress (q : Page) (n : String) :
    inputByName (scheduleProgress 0 q) n = inputByName q n := by
  rw [scheduleProgress_eq]; rfl

theorem btnDisabled_submit (event : SubmitEvent) (p : Page) :
    btnDisabled (submitHandler event p).page = (btnDisabled p).map (fun _ => true) := by
  rcases submitHandler_cases event p with ⟨hb, h⟩ | ⟨_, _, h⟩ | ⟨_, box, _, h⟩
  · rw [h]
    have : btnDisabled (emit .preventDefault p) = btnDisabled p := rfl
    rw [this]
    simp only [btnDisabled, hb, Option.map_none']
  · rw [h]
    exact btnDisabled_afterPrologue p
  · rw [h]
    have : btnDisabled (scheduleProgress 0 (ajax (searchRequestOf p box) (afterPrologue p))) =
        btnDisabled (afterPrologue p) := by
      simp only [btnDisabled, byId_scheduleProgress]
      rfl
    rw [this]
    exact btnDisabled_afterPrologue p

theorem byId_submit_map {α : Type} (g : Elem → α) (j : String) (event : SubmitEvent)
    (p : Page)
    (h1 : ∀ (e : Elem) (b : Bool), g { e with disabled := b } = g e)
    (h2 : ∀ (e : Elem) (c : List String), g { e with classes := c } = g e)
    (h3 : ∀ (e : Elem) (b : Bool), g { e with hidden := b } = g e) :
    (byId (submitHandler event p).page j).map g = (byId p j).map g := by
  rcases submitHandler_cases event p with ⟨_, h⟩ | ⟨_, _, h⟩ | ⟨_, box, _, h⟩
  · rw [h]; rfl
  · rw [h]; exact byId_afterPrologue_map g j p h1 h2 h3
  · rw [h]
    simp only [byId_scheduleProgress]
    exact byId_afterPrologue_map g j p h1 h2 h3

theorem inputByName_submit_map {α : Type} (g : Elem → α) (n : String) (event : SubmitEvent)
    (p : Page)
    (h1 : ∀ (e : Elem) (b : Bool), g { e with disabled := b } = g e)
    (h2 : ∀ (e : Elem) (c : List String), g { e with classes := c } = g e)
    (h3 : ∀ (e : Elem) (b : Bool), g { e with hidden := b } = g e) :
    (inputByName (submitHandler event p).page n).map g = (inputByName p n).map g := by
  rcases submitHandler_cases event p with ⟨_, h⟩ | ⟨_, _, h⟩ | ⟨_, box, _, h⟩
  · rw [h]; rfl
  · rw [h]; exact inputByName_afterPrologue_map g n p h1 h2 h3
  · rw [h]
    simp only [inputByName_scheduleProgress]
    exact inputByName_afterPrologue_map g n p h1 h2 h3

theorem isSome_of_map_unit {α : Type} (o o2 : Option α)
    (h : o2.map (fun _ => ()) = o.map (fun _ => ())) : o2.isSome = o.isSome := by
  cases o <;> cases o2 <;> simp_all

theorem hasControls_submit (event : SubmitEvent) (p : Page) (h : hasControls p) :
    hasControls (submitHandler event p).page := by
  obtain ⟨hb, hc⟩ := h
  refine ⟨?_, ?_⟩
  · rw [isSome_of_map_unit _ _ (byId_submit_map (fun _ => ()) "search-btn" event p
      (fun _ _ => rfl) (fun _ _ => rfl) (fun _ _ => rfl))]
    exact hb
  · rw [isSome_of_map_unit _ _ (inputByName_submit_map (fun _ => ()) "is_use_source" event p
      (fun _ _ => rfl) (fun _ _ => rfl) (fun _ _ => rfl))]
    exact hc

theorem timers_submit (event : SubmitEvent) (p : Page) (h : hasControls p) :
    (submitHandler event p).page.timers = p.timers ++ pollTimers := by
  obtain ⟨box, _, heq⟩ := submitHandler_eq event p h
  rw [heq, scheduleProgress_eq]
  rfl

/-- One submission of the sample page gives the busy page. -/
theorem submit_samplePage : (submitHandler ⟨false⟩ samplePage).page = busyPage := by
  obtain ⟨box, hbox, heq⟩ := submitHandler_eq ⟨false⟩ samplePage (by decide)
  have hb : inputByName samplePage "is_use_source" =
      some ⟨"input", "is_use_source", "is_use_source", "on", true, false, [], false, ""⟩ := by
    decide
  rw [hb] at hbox
  cases hbox
  rw [heq, scheduleProgress_eq]
  decide

theorem val_typeInto (q : Page) (i v : String) (h : (byId q i).isSome = true) :
    val (typeInto i v q) i = JSVal.str v := by
  unfold val typeInto
  rw [byId_modify_self]
  · cases hx : byId q i with
    | none => rw [hx] at h; simp at h
    | some e => rfl
  · exact fun _ => rfl

theorem mem_addClass (c : String) (cs : List String) :
    c ∈ (if c ∈ cs then cs else cs ++ [c]) := by
  by_cases h : c ∈ cs
  · rw [if_pos h]; exact h
  · rw [if_neg h]; simp

theorem not_mem_removeClass (c : String) (cs : List String) :
    c ∉ cs.filter (fun d => decide (d ≠ c)) := by
  simp [List.mem_filter]

theorem map_of_isSome {α β : Type} (o : Option α) (f : α → β) (h : o.isSome = true) :
    ∃ x, o = some x ∧ o.map f = some (f x) := by
  cases o with
  | none => simp at h
  | some a => exact ⟨a, rfl, rfl⟩

theorem map_const_of_isSome {α β : Type} (o : Option α) (c : β) (h : o.isSome = true) :
    o.map (fun _ => c) = some c := by
  cases o with
  | none => simp at h
  | some a => rfl

theorem htmlOf_isSome (p : Page) (j : String) (h : (byId p j).isSome = true) :
    (htmlOf p j).isSome = true := by
  unfold htmlOf
  cases hx : byId p j with
  | none => rw [hx] at h; simp at h
  | some a => rfl

theorem btnDisabled_afterCleanup (q : Page) :
    btnDisabled (afterCleanup q) = (btnDisabled q).map (fun _ => false) := by
  simp only [btnDisabled, afterCleanup, jqShow, removeClass, setDisabled]
  rw [byId_emit, byId_modify_map, byId_emit, byId_modify_map, byId_emit, byId_modify_map,
    byId_emit, byId_modify_self, Option.map_map, Option.map_map]
  all_goals first
    | rfl
    | exact fun _ => rfl

theorem spinnerClasses_afterCleanup (q : Page) :
    spinnerClasses (afterCleanup q) =
      (spinnerClasses q).map (fun cs => cs.filter (fun d => decide (d ≠ "d-flex"))) := by
  simp only [spinnerClasses, afterCleanup, jqShow, removeClass, setDisabled]
  rw [byId_emit, byId_modify_map, byId_emit, byId_modify_map, byId_emit, byId_modify_self,
    Option.map_map, byId_emit, byId_modify_ne, Option.map_map]
  all_goals first
    | rfl
    | exact fun _ => rfl
    | decide

theorem hiddenOf_results_afterCleanup (q : Page) :
    hiddenOf (afterCleanup q) "search-results" =
      (hiddenOf q "search-results").map (fun _ => false) := by
  simp only [hiddenOf, afterCleanup, jqShow, removeClass, setDisabled]
  rw [byId_emit, byId_modify_ne, byId_emit, byId_modify_self, Option.map_map,
    byId_emit, byId_modify_ne, byId_emit, byId_modify_ne, Option.map_map]
  all_goals first
    | rfl
    | exact fun _ => rfl
    | decide

theorem hiddenOf_explain_afterCleanup (q : Page) :
    hiddenOf (afterCleanup q) "explain_results" =
      (hiddenOf q "explain_results").map (fun _ => false) := by
  simp only [hiddenOf, afterCleanup, jqShow, removeClass, setDisabled]
  rw [byId_emit, byId_modify_self, Option.map_map, byId_emit, byId_modify_ne,
    byId_emit, byId_modify_ne, byId_emit, byId_modify_ne, Option.map_map]
  all_goals first
    | rfl
    | exact fun _ => rfl
    | decide

theorem htmlOf_afterCleanup (q : Page) (j : String) :
    htmlOf (afterCleanup q) j = htmlOf q j := by
  simp only [htmlOf, afterCleanup, jqShow, removeClass, setDisabled]
  rw [byId_emit, byId_modify_map, byId_emit, byId_modify_map, byId_emit, byId_modify_map,
    byId_emit, byId_modify_map]
  all_goals exact fun _ => rfl

/-! ## Writing a fragment -/

theorem modifyById_of_find_none (i : String) (f : Elem → Elem) (l : List Elem)
    (h : l.find? (fun e => decide (e.id = i)) = none) : modifyById i f l = l := by
  induction l with
  | nil => rfl
  | cons e es ih =>
    by_cases hi : e.id = i
    · simp [List.find?_cons, hi] at h
    · simp only [List.find?_cons, hi, decide_False] at h
      simp only [modifyById, hi, if_false, ih h]

theorem modify_of_byId_none (i : String) (f : Elem → Elem) (p : Page)
    (h : byId p i = none) : modify i f p = p := by
  unfold modify
  rw [modifyById_of_find_none i f p.elems h]

theorem setHtml_inert (br : Browser) (i s : String) (p : Page) (h : inert br s) :
    setHtml br i s p = writeHtml br i s p := by
  unfold setHtml
  cases hb : byId p i with
  | none =>
    simp only [writeHtml]
    rw [modify_of_byId_none i _ p hb]
  | some e =>
    simp only [h e.tag, runScripts, List.foldl_nil]

theorem byId_writeHtml_map {α : Type} (g : Elem → α) (br : Browser) (i j s : String)
    (p : Page) (h : ∀ (e : Elem) (c : String), g { e with html := c } = g e) :
    (byId (writeHtml br i s p) j).map g = (byId p j).map g := by
  simp only [writeHtml]
  rw [byId_emit, byId_modify_map]
  all_goals first
    | exact fun _ => rfl
    | exact fun e => h e _

theorem byId_writeHtml_ne (br : Browser) (i j s : String) (p : Page) (h : j ≠ i) :
    byId (writeHtml br i s p) j = byId p j := by
  simp only [writeHtml]
  rw [byId_emit, byId_modify_ne]
  all_goals first
    | exact fun _ => rfl
    | exact h

theorem htmlOf_writeHtml_self (br : Browser) (i s : String) (p : Page) :
    htmlOf (writeHtml br i s p) i =
      (byId p i).map (fun e => (br.parse e.tag s).content) := by
  simp only [htmlOf, writeHtml]
  rw [byId_emit, byId_modify_self, Option.map_map]
  all_goals first
    | rfl
    | exact fun _ => rfl

theorem tag_writeHtml (br : Browser) (i j s : String) (p : Page) :
    (byId (writeHtml br i s p) j).map (fun e => e.tag) = (byId p j).map (fun e => e.tag) :=
  byId_writeHtml_map _ br i j s p (fun _ _ => rfl)

/-! ## The search callbacks, statement by statement -/

/-- The two ways through lines 38-41: line 38 throws, or they run to their end. -/
theorem cleanup_cases (q : Page) :
    (byId q "search-btn" = none ∧ cleanup q = (q, .threw .typeError)) ∨
    ((byId q "search-btn").isSome = true ∧ cleanup q = (afterCleanup q, .normal)) := by
  unfold cleanup
  cases hb : byId q "search-btn" with
  | none => exact Or.inl ⟨rfl, rfl⟩
  | some b => exact Or.inr ⟨rfl, rfl⟩

theorem searchSuccess_token (br : Browser) (r : SearchResponse) (p : Page)
    (ht : isToken r.id = true) (h1 : inert br r.html) (h2 : inert br r.explain_html) :
    searchSuccess br r p = cleanup (afterContent br r p) := by
  unfold searchSuccess jqHash
  simp only [ht, if_true, jqHtml]
  rw [setHtml_inert br _ _ _ h1, setHtml_inert br _ _ _ h2]
  rfl

theorem searchError_unnamed (br : Browser) (error : String) (p : Page)
    (h : nameUnbound p "response" = true) :
    searchError br error p = (consoleLog error p, .threw (.referenceError "response")) := by
  unfold nameUnbound at h
  simp only [Bool.and_eq_true, Option.isNone_iff_eq_none, Bool.not_eq_true'] at h
  have h1 : globalValue (consoleLog error p) "response" = none := h.1
  have h2 : windowNamed (consoleLog error p) "response" = false := h.2
  unfold searchError
  simp only [h1, h2]
  rfl

theorem byId_afterContent_map {α : Type} (g : Elem → α) (j : String) (br : Browser)
    (r : SearchResponse) (p : Page)
    (h : ∀ (e : Elem) (s : String), g { e with html := s } = g e) :
    (byId (afterContent br r p) j).map g = (byId p j).map g := by
  unfold afterContent
  rw [byId_writeHtml_map g br _ _ _ _ h, byId_writeHtml_map g br _ _ _ _ h]

theorem htmlOf_cleanup (q : Page) (j : String) : htmlOf (cleanup q).1 j = htmlOf q j := by
  rcases cleanup_cases q with ⟨_, h⟩ | ⟨_, h⟩
  · rw [h]
  · rw [h]
    exact htmlOf_afterCleanup q j

theorem htmlOf_explain_afterContent (br : Browser) (r : SearchResponse) (p : Page) :
    htmlOf (afterContent br r p) "explain_results" =
      (byId p "explain_results").map (fun e => (br.parse e.tag r.explain_html).content) := by
  unfold afterContent
  rw [htmlOf_writeHtml_self]
  have ht := tag_writeHtml br r.id "explain_results" r.html p
  cases h1 : byId (writeHtml br r.id r.html p) "explain_results" <;>
    cases h2 : byId p "explain_results" <;> rw [h1, h2] at ht <;> simp_all

theorem htmlOf_region_afterContent (br : Browser) (r : SearchResponse) (p : Page)
    (h : r.id ≠ "explain_results") :
    htmlOf (afterContent br r p) r.id =
      (byId p r.id).map (fun e => (br.parse e.tag r.html).content) := by
  unfold afterContent htmlOf
  rw [byId_writeHtml_ne br _ _ _ _ h]
  exact htmlOf_writeHtml_self br r.id r.html p

/-! ## The progress callbacks -/

theorem progressSuccess_inert (br : Browser) (r : ProgressResponse) (p : Page)
    (h : inert br r.html) :
    progressSuccess br r p = writeHtml br "search-result-step" r.html p :=
  setHtml_inert br _ _ p h

theorem sameOutsideStatus_of_elems (p q : Page) (he : q.elems = p.elems)
    (ht : q.timers = p.timers) : sameOutsideStatus p q := by
  simp only [sameOutsideStatus, btnDisabled, spinnerClasses, hiddenOf, htmlOf, byId, he, ht,
    and_self]

theorem sameOutsideStatus_writeHtml (br : Browser) (s : String) (p : Page) :
    sameOutsideStatus p (writeHtml br "search-result-step" s p) := by
  refine ⟨?_, ?_, ?_, ?_, ?_, ?_, rfl⟩
  · exact byId_writeHtml_map _ br _ _ s p (fun _ _ => rfl)
  · exact byId_writeHtml_map _ br _ _ s p (fun _ _ => rfl)
  · exact byId_writeHtml_map _ br _ _ s p (fun _ _ => rfl)
  · exact byId_writeHtml_map _ br _ _ s p (fun _ _ => rfl)
  · unfold htmlOf; rw [byId_writeHtml_ne br _ _ s p (by decide)]
  · unfold htmlOf; rw [byId_writeHtml_ne br _ _ s p (by decide)]

/-! ## Turns of the event loop -/

theorem map_nameKey_modifyById (i : String) (f : Elem → Elem) (l : List Elem)
    (h : ∀ e, nameKey (f e) = nameKey e) :
    (modifyById i f l).map nameKey = l.map nameKey := by
  induction l with
  | nil => rfl
  | cons e es ih =>
    by_cases hi : e.id = i
    · simp only [modifyById, hi, if_true, List.map_cons, h]
    · simp only [modifyById, hi, if_false, List.map_cons, ih]

theorem keys_modify (i : String) (f : Elem → Elem) (p : Page)
    (h : ∀ e, nameKey (f e) = nameKey e) :
    (modify i f p).elems.map nameKey = p.elems.map nameKey :=
  map_nameKey_modifyById i f p.elems h

theorem windowNamed_of_keys (p q : Page) (n : String)
    (h : q.elems.map nameKey = p.elems.map nameKey) : windowNamed q n = windowNamed p n := by
  have key : ∀ l : List Elem,
      l.any (fun e =>
        decide (e.id = n) ||
          (decide (e.tag ∈ ["embed", "form", "img", "object", "iframe", "frame"]) &&
            decide (e.name = n))) =
      (l.map nameKey).any (fun k =>
        decide (k.1 = n) ||
          (decide (k.2.1 ∈ ["embed", "form", "img", "object", "iframe", "frame"]) &&
            decide (k.2.2 = n))) := by
    intro l
    induction l with
    | nil => rfl
    | cons e es ih => simp only [List.any_cons, List.map_cons, nameKey, ih]
  unfold windowNamed
  rw [key q.elems, key p.elems, h]

theorem keys_afterPrologue (p : Page) :
    (afterPrologue p).elems.map nameKey = p.elems.map nameKey := by
  simp only [afterPrologue, jqHide, addClass, setDisabled, emit]
  rw [keys_modify, keys_modify, keys_modify, keys_modify]
  all_goals exact fun _ => rfl

theorem keys_submit (event : SubmitEvent) (p : Page) :
    (submitHandler event p).page.elems.map nameKey = p.elems.map nameKey := by
  rcases submitHandler_cases event p with ⟨_, h⟩ | ⟨_, _, h⟩ | ⟨_, box, _, h⟩
  · rw [h]; rfl
  · rw [h]; exact keys_afterPrologue p
  · rw [h, scheduleProgress_eq]
    exact keys_afterPrologue p

theorem keys_step (br : Browser) (p : Page) (a : Action) (ha : calm br a)
    (hn : nameUnbound p "response" = true) :
    (step br p a).elems.map nameKey = p.elems.map nameKey := by
  cases a with
  | submit => exact keys_submit _ p
  | searchSucceeds k r => exact absurd ha (by simp [calm])
  | timerFires k =>
    simp only [step]
    cases p.timers[k]? with
    | none => rfl
    | some t =>
      cases hcb : t.callback
      simp only [hcb]
      rfl
  | searchFails k error =>
    simp only [step]
    cases p.inflight[k]? with
    | none => rfl
    | some req =>
      cases hreq : req.error with
      | searchError =>
        simp only [hreq]
        have hn2 : nameUnbound { p with inflight := p.inflight.eraseIdx k } "response" =
          true := hn
        rw [searchError_unnamed br error _ hn2]
        rfl
      | progressError => simp only [hreq]
  | progressSucceeds k r =>
    simp only [step]
    cases p.inflight[k]? with
    | none => rfl
    | some req =>
      cases hreq : req.success with
      | progressSuccess =>
        simp only [hreq]
        rw [progressSuccess_inert br r _ ha]
        simp only [writeHtml, emit]
        rw [keys_modify]
        exact fun _ => rfl
      | searchSuccess => simp only [hreq]
  | progressFails k error =>
    simp only [step]
    cases p.inflight[k]? with
    | none => rfl
    | some req =>
      cases hreq : req.error with
      | progressError => simp only [hreq]; rfl
      | searchError => simp only [hreq]
  | userTypes ident v =>
    simp only [step, typeInto]
    rw [keys_modify]
    exact fun _ => rfl
  | userToggles ident b =>
    simp only [step, toggle]
    rw [keys_modify]
    exact fun _ => rfl

theorem nameUnbound_of_keys (p q : Page) (n : String)
    (h : q.elems.map nameKey = p.elems.map nameKey) (hg : q.globals = p.globals) :
    nameUnbound q n = nameUnbound p n := by
  unfold nameUnbound globalValue
  rw [windowNamed_of_keys p q n h, hg]

theorem globals_submit (event : SubmitEvent) (p : Page) :
    (submitHandler event p).page.globals = p.globals := by
  rcases submitHandler_cases event p with ⟨_, h⟩ | ⟨_, _, h⟩ | ⟨_, box, _, h⟩
  · rw [h]; rfl
  · rw [h]; rfl
  · rw [h, scheduleProgress_eq]
    rfl

theorem globals_step (br : Browser) (p : Page) (a : Action) (ha : calm br a)
    (hn : nameUnbound p "response" = true) :
    (step br p a).globals = p.globals := by
  cases a with
  | submit => exact globals_submit _ p
  | searchSucceeds k r => exact absurd ha (by simp [calm])
  | timerFires k =>
    simp only [step]
    cases p.timers[k]? with
    | none => rfl
    | some t =>
      cases hcb : t.callback
      simp only [hcb]
      rfl
  | searchFails k error =>
    simp only [step]
    cases p.inflight[k]? with
    | none => rfl
    | some req =>
      cases hreq : req.error with
      | searchError =>
        simp only [hreq]
        have hn2 : nameUnbound { p with inflight := p.inflight.eraseIdx k } "response" =
            true := hn
        rw [searchError_unnamed br error _ hn2]
        rfl
      | progressError => simp only [hreq]
  | progressSucceeds k r =>
    simp only [step]
    cases p.inflight[k]? with
    | none => rfl
    | some req =>
      cases hreq : req.success with
      | progressSuccess =>
        simp only [hreq]
        rw [progressSuccess_inert br r _ ha]
        rfl
      | searchSuccess => simp only [hreq]
  | progressFails k error =>
    simp only [step]
    cases p.inflight[k]? with
    | none => rfl
    | some req =>
      cases hreq : req.error with
      | progressError => simp only [hreq]; rfl
      | searchError => simp only [hreq]
  | userTypes ident v => rfl
  | userToggles ident b => rfl

theorem byId_step_quiet_map {α : Type} (g : Elem → α) (j : String) (br : Browser) (p : Page)
    (a : Action) (ha : quiet a = true) (hs : scriptFree br a)
    (hn : nameUnbound p "response" = true)
    (h1 : ∀ (e : Elem) (s : String), g { e with html := s } = g e)
    (h2 : ∀ (e : Elem) (v : String), g { e with value := v } = g e)
    (h3 : ∀ (e : Elem) (b : Bool), g { e with checked := b } = g e) :
    (byId (step br p a) j).map g = (byId p j).map g := by
  cases a with
  | submit => simp [quiet] at ha
  | searchSucceeds k r => simp [quiet] at ha
  | timerFires k =>
    simp only [step]
    cases p.timers[k]? with
    | none => rfl
    | some t =>
      cases hcb : t.callback
      simp only [hcb]
      rfl
  | searchFails k error =>
    simp only [step]
    cases p.inflight[k]? with
    | none => rfl
    | some req =>
      cases hreq : req.error with
      | searchError =>
        simp only [hreq]
        have hn2 : nameUnbound { p with inflight := p.inflight.eraseIdx k } "response" =
          true := hn
        rw [searchError_unnamed br error _ hn2]
        rfl
      | progressError => simp only [hreq]
  | progressSucceeds k r =>
    simp only [step]
    cases p.inflight[k]? with
    | none => rfl
    | some req =>
      cases hreq : req.success with
      | progressSuccess =>
        simp only [hreq]
        rw [progressSuccess_inert br r _ hs]
        exact byId_writeHtml_map g br _ j _ _ h1
      | searchSuccess => simp only [hreq]
  | progressFails k error =>
    simp only [step]
    cases p.inflight[k]? with
    | none => rfl
    | some req =>
      cases hreq : req.error with
      | progressError => simp only [hreq]; rfl
      | searchError => simp only [hreq]
  | userTypes ident v =>
    simp only [step, typeInto]
    rw [byId_modify_map]
    all_goals first
      | exact fun _ => rfl
      | exact fun e => h2 e _
  | userToggles ident b =>
    simp only [step, toggle]
    rw [byId_modify_map]
    all_goals first
      | exact fun _ => rfl
      | exact fun e => h3 e _

theorem busy_of_same (p q : Page) (h : busy p)
    (h1 : btnDisabled q = btnDisabled p) (h2 : spinnerClasses q = spinnerClasses p)
    (h3 : hiddenOf q "search-results" = hiddenOf p "search-results")
    (h4 : hiddenOf q "explain_results" = hiddenOf p "explain_results") : busy q := by
  unfold busy at h ⊢
  rw [h1, h2, h3, h4]
  exact h

theorem busy_afterPrologue (p : Page) (hb : (byId p "search-btn").isSome = true)
    (hr : hasRegions p) : busy (afterPrologue p) := by
  obtain ⟨hsp, hres, hexp⟩ := hr
  refine ⟨?_, ?_, ?_, ?_⟩
  · rw [btnDisabled_afterPrologue]
    obtain ⟨x, hx, _⟩ := map_of_isSome _ (fun e => e.disabled) hb
    unfold btnDisabled
    rw [hx]; rfl
  · rw [spinnerClasses_afterPrologue]
    obtain ⟨x, hx, _⟩ := map_of_isSome _ (fun e => e.classes) hsp
    unfold spinnerClasses
    rw [hx]
    exact ⟨_, rfl, mem_addClass _ _⟩
  · rw [hiddenOf_results_afterPrologue]
    obtain ⟨x, hx, _⟩ := map_of_isSome _ (fun e => e.hidden) hres
    unfold hiddenOf
    rw [hx]; rfl
  · rw [hiddenOf_explain_afterPrologue]
    obtain ⟨x, hx, _⟩ := map_of_isSome _ (fun e => e.hidden) hexp
    unfold hiddenOf
    rw [hx]; rfl

theorem isSome_of_map_some {α β : Type} (o : Option α) (f : α → β) (b : β)
    (h : o.map f = some b) : o.isSome = true := by
  cases o with
  | none => simp at h
  | some a => rfl

theorem exists_of_busy (p : Page) (h : busy p) :
    (byId p "search-btn").isSome = true ∧ hasRegions p := by
  obtain ⟨h1, ⟨cs, h2, _⟩, h3, h4⟩ := h
  exact ⟨isSome_of_map_some _ _ _ h1, isSome_of_map_some _ _ _ h2,
    isSome_of_map_some _ _ _ h3, isSome_of_map_some _ _ _ h4⟩

theorem busy_submit (event : SubmitEvent) (p : Page)
    (hb : (byId p "search-btn").isSome = true) (hr : hasRegions p) :
    busy (submitHandler event p).page := by
  rcases submitHandler_cases event p with ⟨hnone, _⟩ | ⟨_, _, h⟩ | ⟨_, box, _, h⟩
  · rw [hnone] at hb; simp at hb
  · rw [h]; exact busy_afterPrologue p hb hr
  · rw [h]
    refine busy_of_same (afterPrologue p) _ (busy_afterPrologue p hb hr) ?_ ?_ ?_ ?_
    all_goals
      simp only [btnDisabled, spinnerClasses, hiddenOf, byId_scheduleProgress]
      rfl

theorem busy_step (br : Browser) (p : Page) (a : Action) (hb : busy p) (ha : calm br a)
    (hn : nameUnbound p "response" = true) : busy (step br p a) := by
  by_cases hsub : a = Action.submit
  · subst hsub
    obtain ⟨h1, h2⟩ := exists_of_busy p hb
    exact busy_submit _ p h1 h2
  · have hq : quiet a = true := by
      cases a <;> simp_all [quiet, calm]
    have hs : scriptFree br a := by
      cases a <;> simp_all [scriptFree, calm]
    exact busy_of_same p _ hb
      (byId_step_quiet_map _ _ br p a hq hs hn (fun _ _ => rfl) (fun _ _ => rfl)
        (fun _ _ => rfl))
      (byId_step_quiet_map _ _ br p a hq hs hn (fun _ _ => rfl) (fun _ _ => rfl)
        (fun _ _ => rfl))
      (byId_step_quiet_map _ _ br p a hq hs hn (fun _ _ => rfl) (fun _ _ => rfl)
        (fun _ _ => rfl))
      (byId_step_quiet_map _ _ br p a hq hs hn (fun _ _ => rfl) (fun _ _ => rfl)
        (fun _ _ => rfl))

theorem busy_run (br : Browser) (acts : List Action) (p : Page) (hb : busy p)
    (hn : nameUnbound p "response" = true) (ha : ∀ a ∈ acts, calm br a) :
    busy (run br p acts) ∧ nameUnbound (run br p acts) "response" = true := by
  induction acts generalizing p with
  | nil => exact ⟨hb, hn⟩
  | cons a rest ih =>
    have h1 := ha a (List.mem_cons_self _ _)
    have hrest : ∀ b ∈ rest, calm br b := fun b hb => ha b (List.mem_cons_of_mem _ hb)
    have hn2 : nameUnbound (step br p a) "response" = true := by
      rw [nameUnbound_of_keys p _ _ (keys_step br p a h1 hn) (globals_step br p a h1 hn)]
      exact hn
    exact ih (step br p a) (busy_step br p a hb h1 hn) hn2 hrest

/-- A second submission, of the busy page, gives the page with two searches in flight. -/
theorem submit_busyPage : (submitHandler ⟨false⟩ busyPage).page = twicePage := by
  obtain ⟨box, hbox, heq⟩ := submitHandler_eq ⟨false⟩ busyPage (by decide)
  have hb : inputByName busyPage "is_use_source" =
      some ⟨"input", "is_use_source", "is_use_source", "on", true, false, [], false, ""⟩ := by
    decide
  rw [hb] at hbox
  cases hbox
  rw [heq, scheduleProgress_eq]
  decide

theorem inflight_timerFires (br : Browser) (q : Page) (k : Nat) (t : Timer)
    (h : q.timers[k]? = some t) :
    (step br q (.timerFires k)).inflight =
      q.inflight ++ [progressRequest (val q "request_id")] := by
  simp only [step, h]
  cases hcb : t.callback
  rfl

/-- After lines 36-41 on a busy page, for a plain token and fragments without script:
the callback ends normally with the page restored. -/
theorem searchSuccess_of_busy (br : Browser) (r : SearchResponse) (q : Page) (hb : busy q)
    (ht : isToken r.id = true) (h1 : inert br r.html) (h2 : inert br r.explain_html) :
    (searchSuccess br r q).2 = Completion.normal ∧
    btnDisabled (searchSuccess br r q).1 = some false ∧
    (∃ cs, spinnerClasses (searchSuccess br r q).1 = some cs ∧ "d-flex" ∉ cs) ∧
    hiddenOf (searchSuccess br r q).1 "search-results" = some false ∧
    hiddenOf (searchSuccess br r q).1 "explain_results" = some false := by
  obtain ⟨hB, ⟨cs, hS, _⟩, hR, hE⟩ := hb
  rw [searchSuccess_token br r q ht h1 h2]
  have hbtn : (byId (afterContent br r q) "search-btn").isSome = true := by
    have := byId_afterContent_map (fun e => e.disabled) "search-btn" br r q (fun _ _ => rfl)
    unfold btnDisabled at hB
    rw [hB] at this
    exact isSome_of_map_some _ _ _ this
  rcases cleanup_cases (afterContent br r q) with ⟨hnone, _⟩ | ⟨_, hs⟩
  · rw [hnone] at hbtn; simp at hbtn
  · rw [hs]
    refine ⟨rfl, ?_, ?_, ?_, ?_⟩
    · rw [btnDisabled_afterCleanup]
      unfold btnDisabled
      rw [byId_afterContent_map (fun e => e.disabled) "search-btn" br r _ (fun _ _ => rfl)]
      unfold btnDisabled at hB
      rw [hB]; rfl
    · rw [spinnerClasses_afterCleanup]
      unfold spinnerClasses
      rw [byId_afterContent_map (fun e => e.classes) "search-result-spinner" br r _
        (fun _ _ => rfl)]
      unfold spinnerClasses at hS
      rw [hS]
      exact ⟨_, rfl, not_mem_removeClass _ _⟩
    · rw [hiddenOf_results_afterCleanup]
      unfold hiddenOf
      rw [byId_afterContent_map (fun e => e.hidden) "search-results" br r _ (fun _ _ => rfl)]
      unfold hiddenOf at hR
      rw [hR]; rfl
    · rw [hiddenOf_explain_afterCleanup]
      unfold hiddenOf
      rw [byId_afterContent_map (fun e => e.hidden) "explain_results" br r _ (fun _ _ => rfl)]
      unfold hiddenOf at hE
      rw [hE]; rfl

/-! ## Scheduling of the progress polls -/

/-- C1: on a page that has the two controls the handler dereferences, one run of the
submit handler adds exactly ten timers to the queue, each a one-shot timer running
refresh_progress, with delays 0, 1000, ..., 9000 in that order (the i-th delay is
1000 * i), and adds no other timer. -/
theorem submit_schedules_ten_polls (event : SubmitEvent) (p : Page) (h : hasControls p) :
    ∃ added : List Timer,
      (submitHandler event p).page.timers = p.timers ++ added ∧
      added.length = 10 ∧
      added.map (fun t => t.delay) =
        [0, 1000, 2000, 3000, 4000, 5000, 6000, 7000, 8000, 9000] ∧
      (∀ i, i < 10 → (added.map (fun t => t.delay))[i]? = some (1000 * i)) ∧
      (∀ t ∈ added, t.callback = TimerCallback.refresh_progress ∧ t.repeating = false) := by
  obtain ⟨box, _, heq⟩ := submitHandler_eq event p h
  refine ⟨pollTimers, ?_, by decide, by decide, by decide, by decide⟩
  rw [heq, scheduleProgress_eq]
  rfl

/-- The ten polls of one submission of the sample page. -/
theorem submit_schedules_ten_polls_witness :
    hasControls samplePage ∧
    ∃ added : List Timer,
      (submitHandler ⟨false⟩ samplePage).page.timers = samplePage.timers ++ added ∧
      added.length = 10 ∧
      added.map (fun t => t.delay) =
        [0, 1000, 2000, 3000, 4000, 5000, 6000, 7000, 8000, 9000] ∧
      (∀ i, i < 10 → (added.map (fun t => t.delay))[i]? = some (1000 * i)) ∧
      (∀ t ∈ added, t.callback = TimerCallback.refresh_progress ∧ t.repeating = false) :=
  ⟨by decide, submit_schedules_ten_polls ⟨false⟩ samplePage (by decide)⟩

/-! ## The search request -/

/-- C6: on a page that has the two controls the handler dereferences, one run of the
submit handler sends exactly one request, a POST to /search, whose body has exactly the
six fields q, bing_search_subscription_key, openai_api_key, is_use_source,
llm_service_provider and llm_model, in that order, each holding the value its page input
had when the handler started (q from #form1, is_use_source the checked state of the
checkbox as a boolean). -/
theorem submit_sends_one_search_request (event : SubmitEvent) (p : Page)
    (h : hasControls p) :
    ∃ box, inputByName p "is_use_source" = some box ∧
      (submitHandler event p).page.inflight = p.inflight ++
        [{ url := "/search", method := "POST",
           data := [("q", val p "form1"),
                    ("bing_search_subscription_key", val p "bing_search_subscription_key"),
                    ("openai_api_key", val p "openai_api_key"),
                    ("is_use_source", JSVal.bool box.checked),
                    ("llm_service_provider", val p "llm_service_provider"),
                    ("llm_model", val p "llm_model")],
           success := .searchSuccess, error := .searchError }] ∧
      ((submitHandler event p).page.trace.drop p.trace.length).filter
          (fun x => match x with
            | .ajaxSent _ => true
            | _ => false) =
        [.ajaxSent (searchRequestOf p box)] := by
  obtain ⟨box, hbox, heq⟩ := submitHandler_eq event p h
  refine ⟨box, hbox, ?_, ?_⟩
  · rw [heq, scheduleProgress_eq]
    rfl
  · rw [heq, scheduleProgress_eq]
    simp only [ajax, emit, trace_afterPrologue, List.append_assoc, List.drop_left]
    simp [List.range, List.range.loop]

/-- The request sent by one submission of the sample page. -/
theorem submit_sends_one_search_request_witness :
    hasControls samplePage ∧
    ∃ box, inputByName samplePage "is_use_source" = some box ∧
      (submitHandler ⟨false⟩ samplePage).page.inflight = samplePage.inflight ++
        [{ url := "/search", method := "POST",
           data := [("q", val samplePage "form1"),
                    ("bing_search_subscription_key",
                      val samplePage "bing_search_subscription_key"),
                    ("openai_api_key", val samplePage "openai_api_key"),
                    ("is_use_source", JSVal.bool box.checked),
                    ("llm_service_provider", val samplePage "llm_service_provider"),
                    ("llm_model", val samplePage "llm_model")],
           success := .searchSuccess, error := .searchError }] ∧
      ((submitHandler ⟨false⟩ samplePage).page.trace.drop samplePage.trace.length).filter
          (fun x => match x with
            | .ajaxSent _ => true
            | _ => false) =
        [.ajaxSent (searchRequestOf samplePage box)] :=
  ⟨by decide, submit_sends_one_search_request ⟨false⟩ samplePage (by decide)⟩

/-! ## Default navigation -/

/-- C9: on every page and for every submit event, on each of the three ways through
the handler (completed, or a later statement threw), the event ends with its default
prevented, and the first effect the handler adds to the trace is the preventDefault
call. -/
theorem submit_prevents_default_first (event : SubmitEvent) (p : Page) :
    (submitHandler event p).event.defaultPrevented = true ∧
    ∃ rest, (submitHandler event p).page.trace = p.trace ++ Effect.preventDefault :: rest := by
  rcases submitHandler_cases event p with ⟨_, h⟩ | ⟨_, _, h⟩ | ⟨_, box, _, h⟩
  · rw [h]
    exact ⟨rfl, [], rfl⟩
  · rw [h]
    exact ⟨rfl, _, by rw [trace_afterPrologue]⟩
  · rw [h, scheduleProgress_eq]
    refine ⟨rfl, ?_⟩
    simp only [ajax, emit, trace_afterPrologue, List.append_assoc, List.cons_append]
    exact ⟨_, rfl⟩

/-! ## What a poll sends -/

/-- C5: a timer that fires on page q sends GET /progress with request_id the value of
the #request_id field on q, the page at that moment; if the field was edited to v
after the timer was queued, the request carries v; and two submissions in a row add
twenty timers, all one-shot and all running refresh_progress. -/
theorem poll_reads_request_id_when_fired (br : Browser) (event1 event2 : SubmitEvent)
    (p q : Page) (v : String) (k : Nat) (t : Timer)
    (hp : hasControls p) (hq : (byId q "request_id").isSome = true)
    (hk : q.timers[k]? = some t) :
    (refresh_progress q).inflight = q.inflight ++
      [{ url := "/progress", method := "GET",
         data := [("request_id", val q "request_id")],
         success := .progressSuccess, error := .progressError }] ∧
    (step br q (.timerFires k)).inflight = q.inflight ++
      [{ url := "/progress", method := "GET",
         data := [("request_id", val q "request_id")],
         success := .progressSuccess, error := .progressError }] ∧
    (typeInto "request_id" v q).timers = q.timers ∧
    (step br (typeInto "request_id" v q) (.timerFires k)).inflight = q.inflight ++
      [{ url := "/progress", method := "GET",
         data := [("request_id", JSVal.str v)],
         success := .progressSuccess, error := .progressError }] ∧
    ∃ added : List Timer,
      (submitHandler event2 (submitHandler event1 p).page).page.timers = p.timers ++ added ∧
      added.length = 20 ∧
      (∀ t ∈ added, t.callback = TimerCallback.refresh_progress ∧ t.repeating = false) := by
  refine ⟨rfl, inflight_timerFires br q k t hk, rfl, ?_, pollTimers ++ pollTimers, ?_, by decide,
    by decide⟩
  · have hk2 : (typeInto "request_id" v q).timers[k]? = some t := hk
    rw [inflight_timerFires br _ k t hk2, val_typeInto q _ v hq]
    rfl
  · rw [timers_submit event2 _ (hasControls_submit event1 p hp), timers_submit event1 p hp,
      List.append_assoc]

/-- The fourth poll of the busy page, fired after the field changed from req-1 to
req-2, asks for req-2. -/
theorem poll_reads_request_id_when_fired_witness :
    hasControls samplePage ∧
    (byId busyPage "request_id").isSome = true ∧
    busyPage.timers[3]? = some ⟨.refresh_progress, 3000, false⟩ ∧
    val busyPage "request_id" = JSVal.str "req-1" ∧
    (step sampleBrowser (typeInto "request_id" "req-2" busyPage) (.timerFires 3)).inflight =
      busyPage.inflight ++
        [{ url := "/progress", method := "GET",
           data := [("request_id", JSVal.str "req-2")],
           success := .progressSuccess, error := .progressError }] :=
  ⟨by decide, by decide, by decide, by decide,
    (poll_reads_request_id_when_fired sampleBrowser ⟨false⟩ ⟨false⟩ samplePage busyPage
      "req-2" 3 ⟨.refresh_progress, 3000, false⟩ (by decide) (by decide) (by decide)).2.2.2.1⟩

/-! ## Content written by the search response -/

/-- C2 fails as stated, in four ways.  For the id explain_results line 37 overwrites
what line 36 wrote.  For the id res.v1 the selector of line 36 asks for identifier res
with class v1, and the region whose identifier is res.v1 keeps its content.  An
unclosed span is read back closed.  A script in the fragment rewrites the region the
fragment was written into. -/
theorem search_success_content_counterexample :
    ((byId samplePage "explain_results").isSome = true ∧
      htmlOf (searchSuccess sampleBrowser
          ⟨"explain_results", "<div>A</div>", "<p>B</p>"⟩ samplePage).1
        "explain_results" = some "<p>B</p>" ∧
      "<p>B</p>" ≠ "<div>A</div>") ∧
    ((byId dottedPage "res.v1").isSome = true ∧
      htmlOf (searchSuccess sampleBrowser ⟨"res.v1", "<div>A</div>", "<p>B</p>"⟩ dottedPage).1
        "res.v1" = some "old" ∧
      "old" ≠ "<div>A</div>") ∧
    ((byId samplePage "search-results").isSome = true ∧
      htmlOf (searchSuccess sampleBrowser ⟨"search-results", "<span>50%", "<p>B</p>"⟩
          samplePage).1
        "search-results" = some "<span>50%</span>" ∧
      "<span>50%</span>" ≠ "<span>50%") ∧
    ((byId samplePage "search-result-step").isSome = true ∧
      htmlOf (searchSuccess sampleBrowser ⟨"search-result-step", rewritingFragment, "<p>B</p>"⟩
          samplePage).1
        "search-result-step" = some "done" ∧
      "done" ≠ rewritingFragment) := by
  decide

/-- C2 (amended): for a search response whose id is a plain token and whose html and
explain_html carry no script, on a page that has the region named by id and the
explanation region, after the search success callback the explanation region contains
explain_html as the browser reads it back, and when id is not explain_results the
region addressed by '#' + id contains html as the browser reads it back; a fragment
the browser reads back as written is there exactly. -/
theorem search_success_content (br : Browser) (r : SearchResponse) (p : Page)
    (e1 e2 : Elem) (ht : isToken r.id = true)
    (h1 : inert br r.html) (h2 : inert br r.explain_html)
    (hr : byId p r.id = some e1) (he : byId p "explain_results" = some e2) :
    htmlOf (searchSuccess br r p).1 "explain_results" =
      some (br.parse e2.tag r.explain_html).content ∧
    (r.id ≠ "explain_results" →
      htmlOf (searchSuccess br r p).1 r.id = some (br.parse e1.tag r.html).content) ∧
    (readsBack br r.explain_html →
      htmlOf (searchSuccess br r p).1 "explain_results" = some r.explain_html) ∧
    (r.id ≠ "explain_results" → readsBack br r.html →
      htmlOf (searchSuccess br r p).1 r.id = some r.html) := by
  have hE : htmlOf (searchSuccess br r p).1 "explain_results" =
      some (br.parse e2.tag r.explain_html).content := by
    rw [searchSuccess_token br r p ht h1 h2, htmlOf_cleanup, htmlOf_explain_afterContent, he]
    rfl
  have hR : r.id ≠ "explain_results" →
      htmlOf (searchSuccess br r p).1 r.id = some (br.parse e1.tag r.html).content := by
    intro hne
    rw [searchSuccess_token br r p ht h1 h2, htmlOf_cleanup,
      htmlOf_region_afterContent br r p hne, hr]
    rfl
  refine ⟨hE, hR, fun hb => ?_, fun hne hb => ?_⟩
  · rw [hE, hb e2.tag]
  · rw [hR hne, hb e1.tag]

/-- The sample page after a response that names the result region. -/
theorem search_success_content_witness :
    isToken "search-results" = true ∧
    inert sampleBrowser "<div>A</div>" ∧ inert sampleBrowser "<p>B</p>" ∧
    readsBack sampleBrowser "<div>A</div>" ∧ readsBack sampleBrowser "<p>B</p>" ∧
    byId samplePage "search-results" =
      some ⟨"div", "search-results", "", "", false, false, [], false, "old"⟩ ∧
    byId samplePage "explain_results" =
      some ⟨"div", "explain_results", "", "", false, false, [], false, "old"⟩ ∧
    "search-results" ≠ "explain_results" ∧
    htmlOf (searchSuccess sampleBrowser ⟨"search-results", "<div>A</div>", "<p>B</p>"⟩
        samplePage).1 "explain_results" = some "<p>B</p>" ∧
    htmlOf (searchSuccess sampleBrowser ⟨"search-results", "<div>A</div>", "<p>B</p>"⟩
        samplePage).1 "search-results" = some "<div>A</div>" :=
  ⟨by decide, fun _ => rfl, fun _ => rfl, fun _ => rfl, fun _ => rfl, by decide, by decide,
    by decide,
    (search_success_content sampleBrowser ⟨"search-results", "<div>A</div>", "<p>B</p>"⟩
      samplePage ⟨"div", "search-results", "", "", false, false, [], false, "old"⟩
      ⟨"div", "explain_results", "", "", false, false, [], false, "old"⟩
      (by decide) (fun _ => rfl) (fun _ => rfl) (by decide) (by decide)).2.2.1
      (fun _ => rfl),
    (search_success_content sampleBrowser ⟨"search-results", "<div>A</div>", "<p>B</p>"⟩
      samplePage ⟨"div", "search-results", "", "", false, false, [], false, "old"⟩
      ⟨"div", "explain_results", "", "", false, false, [], false, "old"⟩
      (by decide) (fun _ => rfl) (fun _ => rfl) (by decide) (by decide)).2.2.2
      (by decide) (fun _ => rfl)⟩

/-! ## The failing search -/

/-- C4: on a page where the name response is bound neither as a global variable nor
through an element, so that it is undefined, the error callback of the search logs the
error and then ends with a ReferenceError on that name; the log line is the only
effect, so no element of the
page changes: the explanation region keeps its content, the submit control keeps its
disabled flag, the busy indicator keeps its classes (d-flex among them), and the
result and explanation regions stay as hidden as they were.  The same holds for the
turn of the event loop that delivers the failure. -/
theorem search_error_aborts_before_cleanup (br : Browser) (error : String) (p : Page)
    (k : Nat) (hn : nameUnbound p "response" = true) :
    (searchError br error p).2 = Completion.threw (JSError.referenceError "response") ∧
    (searchError br error p).1.trace = p.trace ++ [Effect.logged error] ∧
    (searchError br error p).1.elems = p.elems ∧
    htmlOf (searchError br error p).1 "explain_results" = htmlOf p "explain_results" ∧
    btnDisabled (searchError br error p).1 = btnDisabled p ∧
    spinnerClasses (searchError br error p).1 = spinnerClasses p ∧
    hiddenOf (searchError br error p).1 "search-results" = hiddenOf p "search-results" ∧
    hiddenOf (searchError br error p).1 "explain_results" = hiddenOf p "explain_results" ∧
    (step br p (.searchFails k error)).elems = p.elems := by
  rw [searchError_unnamed br error p hn]
  refine ⟨rfl, rfl, rfl, rfl, rfl, rfl, rfl, rfl, ?_⟩
  simp only [step]
  cases p.inflight[k]? with
  | none => rfl
  | some req =>
    cases hreq : req.error with
    | searchError =>
      simp only [hreq]
      have hn2 : nameUnbound { p with inflight := p.inflight.eraseIdx k } "response" =
          true := hn
      rw [searchError_unnamed br error _ hn2]
      rfl
    | progressError => simp only [hreq]

/-- The failure of the search of the busy page: the page stays busy. -/
theorem search_error_aborts_before_cleanup_witness :
    nameUnbound busyPage "response" = true ∧
    (searchError sampleBrowser "timeout" busyPage).2 =
      Completion.threw (JSError.referenceError "response") ∧
    btnDisabled (searchError sampleBrowser "timeout" busyPage).1 = some true ∧
    spinnerClasses (searchError sampleBrowser "timeout" busyPage).1 = some ["d-none", "d-flex"] ∧
    hiddenOf (searchError sampleBrowser "timeout" busyPage).1 "search-results" = some true ∧
    hiddenOf (searchError sampleBrowser "timeout" busyPage).1 "explain_results" = some true :=
  ⟨by decide,
    (search_error_aborts_before_cleanup sampleBrowser "timeout" busyPage 0 (by decide)).1,
    by decide, by decide, by decide, by decide⟩

/-! ## Content written by a progress response -/

/-- C7 fails as stated, in two ways: an unclosed span is read back closed, and a script
in the fragment rewrites the status region after the fragment was written into it. -/
theorem progress_success_sets_status_counterexample :
    (byId samplePage "search-result-step").isSome = true ∧
    (htmlOf (progressSuccess sampleBrowser ⟨"<span>50%"⟩ samplePage) "search-result-step" =
        some "<span>50%</span>" ∧
      "<span>50%</span>" ≠ "<span>50%") ∧
    (htmlOf (progressSuccess sampleBrowser ⟨rewritingFragment⟩ samplePage)
        "search-result-step" = some "done" ∧
      "done" ≠ rewritingFragment) := by
  decide

/-- C7 (amended): on a page that has the status region, for progress responses whose
html carries no script, after the success callback of a poll the content of the
region #search-result-step is the response's html as the browser reads it back,
whatever it was before, and of two responses the one whose callback runs last decides the content;
a fragment the browser reads back as written is there exactly. -/
theorem progress_success_sets_status (br : Browser) (r r2 : ProgressResponse) (p : Page)
    (e : Elem) (h : byId p "search-result-step" = some e)
    (h1 : inert br r.html) (h2 : inert br r2.html) :
    htmlOf (progressSuccess br r p) "search-result-step" =
      some (br.parse e.tag r.html).content ∧
    htmlOf (progressSuccess br r2 (progressSuccess br r p)) "search-result-step" =
      some (br.parse e.tag r2.html).content ∧
    (readsBack br r.html →
      htmlOf (progressSuccess br r p) "search-result-step" = some r.html) ∧
    (readsBack br r2.html →
      htmlOf (progressSuccess br r2 (progressSuccess br r p)) "search-result-step" =
        some r2.html) := by
  have one : ∀ (s : ProgressResponse) (q : Page) (x : Elem), inert br s.html →
      byId q "search-result-step" = some x →
      htmlOf (progressSuccess br s q) "search-result-step" =
        some (br.parse x.tag s.html).content := by
    intro s q x hs hq
    rw [progressSuccess_inert br s q hs, htmlOf_writeHtml_self, hq]
    rfl
  have htag : (byId (progressSuccess br r p) "search-result-step").map (fun x => x.tag) =
      some e.tag := by
    rw [progressSuccess_inert br r p h1, tag_writeHtml, h]
    rfl
  have hA := one r p e h1 h
  have hB : htmlOf (progressSuccess br r2 (progressSuccess br r p)) "search-result-step" =
      some (br.parse e.tag r2.html).content := by
    cases hx : byId (progressSuccess br r p) "search-result-step" with
    | none => rw [hx] at htag; simp at htag
    | some x =>
      rw [hx] at htag
      simp only [Option.map_some', Option.some.injEq] at htag
      rw [one r2 _ x h2 hx, htag]
  refine ⟨hA, hB, fun hb => ?_, fun hb => ?_⟩
  · rw [hA, hb e.tag]
  · rw [hB, hb e.tag]

/-- Two progress responses on the sample page, one after the other. -/
theorem progress_success_sets_status_witness :
    byId samplePage "search-result-step" =
      some ⟨"div", "search-result-step", "", "", false, false, [], false, ""⟩ ∧
    inert sampleBrowser "<span>50%</span>" ∧ inert sampleBrowser "<span>60%</span>" ∧
    readsBack sampleBrowser "<span>50%</span>" ∧ readsBack sampleBrowser "<span>60%</span>" ∧
    htmlOf (progressSuccess sampleBrowser ⟨"<span>50%</span>"⟩ samplePage)
      "search-result-step" = some "<span>50%</span>" ∧
    htmlOf (progressSuccess sampleBrowser ⟨"<span>60%</span>"⟩
        (progressSuccess sampleBrowser ⟨"<span>50%</span>"⟩ samplePage))
      "search-result-step" = some "<span>60%</span>" :=
  ⟨by decide, fun _ => rfl, fun _ => rfl, fun _ => rfl, fun _ => rfl,
    (progress_success_sets_status sampleBrowser ⟨"<span>50%</span>"⟩ ⟨"<span>60%</span>"⟩
      samplePage ⟨"div", "search-result-step", "", "", false, false, [], false, ""⟩
      (by decide) (fun _ => rfl) (fun _ => rfl)).2.2.1 (fun _ => rfl),
    (progress_success_sets_status sampleBrowser ⟨"<span>50%</span>"⟩ ⟨"<span>60%</span>"⟩
      samplePage ⟨"div", "search-result-step", "", "", false, false, [], false, ""⟩
      (by decide) (fun _ => rfl) (fun _ => rfl)).2.2.2 (fun _ => rfl)⟩

/-! ## What a poll leaves alone -/

/-- C10 fails as stated: a progress response whose fragment carries a script changes
more than the status region; here the script enables the submit control of the busy
page. -/
theorem poll_changes_only_status_counterexample :
    btnDisabled busyPage = some true ∧
    btnDisabled (progressSuccess sampleBrowser ⟨enablingFragment⟩ busyPage) = some false ∧
    ¬ sameOutsideStatus busyPage
        (progressSuccess sampleBrowser ⟨enablingFragment⟩ busyPage) := by
  decide

/-- C10 (amended): the function refresh_progress and both outcomes of its request, the
response's fragment carrying no script, leave the submit control's disabled flag, the
busy indicator's classes, the visibility and content of the result and explanation
regions and the pending timers as they were, as do the turns of the event loop that
deliver the outcomes; on failure no element changes at all, so the status region
keeps its content, and the only effect is the console line. -/
theorem poll_changes_only_status (br : Browser) (r : ProgressResponse) (error : String)
    (p : Page) (k : Nat) (h : inert br r.html) :
    sameOutsideStatus p (refresh_progress p) ∧
    sameOutsideStatus p (progressSuccess br r p) ∧
    sameOutsideStatus p (progressError error p) ∧
    sameOutsideStatus p (step br p (.progressSucceeds k r)) ∧
    sameOutsideStatus p (step br p (.progressFails k error)) ∧
    (progressError error p).elems = p.elems ∧
    htmlOf (progressError error p) "search-result-step" = htmlOf p "search-result-step" ∧
    (progressError error p).trace = p.trace ++ [Effect.logged error] ∧
    htmlOf (step br p (.progressFails k error)) "search-result-step" =
      htmlOf p "search-result-step" := by
  have hS : ∀ q : Page, sameOutsideStatus q (progressSuccess br r q) := by
    intro q
    rw [progressSuccess_inert br r q h]
    exact sameOutsideStatus_writeHtml br _ q
  refine ⟨sameOutsideStatus_of_elems _ _ rfl rfl, hS p,
    sameOutsideStatus_of_elems _ _ rfl rfl, ?_, ?_, rfl, rfl, rfl, ?_⟩
  · simp only [step]
    cases p.inflight[k]? with
    | none => exact sameOutsideStatus_of_elems _ _ rfl rfl
    | some req =>
      cases hreq : req.success with
      | progressSuccess =>
        simp only [hreq]
        exact hS _
      | searchSuccess =>
        simp only [hreq]
        exact sameOutsideStatus_of_elems _ _ rfl rfl
  · simp only [step]
    cases p.inflight[k]? with
    | none => exact sameOutsideStatus_of_elems _ _ rfl rfl
    | some req =>
      cases hreq : req.error with
      | progressError =>
        simp only [hreq]
        exact sameOutsideStatus_of_elems _ _ rfl rfl
      | searchError =>
        simp only [hreq]
        exact sameOutsideStatus_of_elems _ _ rfl rfl
  · simp only [step]
    cases p.inflight[k]? with
    | none => rfl
    | some req =>
      cases hreq : req.error with
      | progressError => simp only [hreq]; rfl
      | searchError => simp only [hreq]

/-- A progress response without script on the busy page. -/
theorem poll_changes_only_status_witness :
    inert sampleBrowser "<span>50%</span>" ∧
    sameOutsideStatus busyPage (progressSuccess sampleBrowser ⟨"<span>50%</span>"⟩ busyPage) :=
  ⟨fun _ => rfl,
    (poll_changes_only_status sampleBrowser ⟨"<span>50%</span>"⟩ "timeout" busyPage 0
      (fun _ => rfl)).2.1⟩

/-! ## The submit control's disabled flag -/

/-- C3 fails as stated, in two ways.  On a page with an element whose identifier is
response the name of line 45 is defined, lines 46-49 run, and the failure of the
search resets the flag.  A progress response whose fragment carries a script can reset
the flag as well. -/
theorem disabled_flag_transitions_counterexample :
    (windowNamed namedPage "response" = true ∧
      btnDisabled namedPage = some true ∧
      (searchError sampleBrowser "timeout" namedPage).2 = Completion.normal ∧
      btnDisabled (searchError sampleBrowser "timeout" namedPage).1 = some false ∧
      btnDisabled (step sampleBrowser namedPage (.searchFails 0 "timeout")) = some false) ∧
    (btnDisabled busyPage = some true ∧
      btnDisabled (step sampleBrowser busyPage (.timerFires 0)) = some true ∧
      btnDisabled (step sampleBrowser (step sampleBrowser busyPage (.timerFires 0))
        (.progressSucceeds 1 ⟨enablingFragment⟩)) = some false) := by
  decide

/-- C3 (amended): (1) on a page that has the two controls the submit handler leaves
the flag true and sends the search request from a page on which the flag is already
true, the assignment being among the effects made before the request and no request
among them; (2) on a page where the name response is bound neither as a global
variable nor through an element, a turn of the event loop that brings no script in a
progress fragment and takes the flag from true to false is the delivery of a
successful response to a request carrying the search success callback; (3) on such a
page the search error callback ends with a ReferenceError and, like the turn that
delivers the failure, leaves the flag as it was. -/
theorem disabled_flag_transitions (br : Browser) (event : SubmitEvent) (p q : Page)
    (a : Action) (error : String) (k : Nat)
    (hp : hasControls p) (hq : nameUnbound q "response" = true) (ha : scriptFree br a) :
    (btnDisabled (submitHandler event p).page = some true ∧
      ∃ q0 req, btnDisabled q0 = some true ∧
        Effect.disabledSet "search-btn" true ∈ q0.trace.drop p.trace.length ∧
        (∀ x ∈ q0.trace.drop p.trace.length, ∀ r, x ≠ Effect.ajaxSent r) ∧
        q0.inflight = p.inflight ∧
        (submitHandler event p).page = scheduleProgress 0 (ajax req q0) ∧
        (submitHandler event p).page.inflight = p.inflight ++ [req]) ∧
    (btnDisabled q = some true → btnDisabled (step br q a) = some false →
      ∃ j r req, a = Action.searchSucceeds j r ∧ q.inflight[j]? = some req ∧
        req.success = SuccessCallback.searchSuccess) ∧
    (searchError br error q).2 = Completion.threw (JSError.referenceError "response") ∧
    btnDisabled (searchError br error q).1 = btnDisabled q ∧
    btnDisabled (step br q (.searchFails k error)) = btnDisabled q := by
  have hflag : btnDisabled (afterPrologue p) = some true := by
    rw [btnDisabled_afterPrologue]
    obtain ⟨x, hx, _⟩ := map_of_isSome _ (fun e => e.disabled) hp.1
    unfold btnDisabled
    rw [hx]; rfl
  refine ⟨⟨?_, ?_⟩, ?_, ?_, ?_, ?_⟩
  · rw [btnDisabled_submit, ← btnDisabled_afterPrologue]
    exact hflag
  · obtain ⟨box, _, h⟩ := submitHandler_eq event p hp
    refine ⟨afterPrologue p, searchRequestOf p box, hflag, ?_, ?_, rfl, by rw [h], ?_⟩
    · rw [trace_afterPrologue, List.drop_left]
      simp
    · rw [trace_afterPrologue, List.drop_left]
      intro x hx r
      simp only [List.mem_cons, List.mem_singleton, List.not_mem_nil, or_false] at hx
      rcases hx with rfl | rfl | rfl | rfl | rfl <;> simp
    · rw [h, scheduleProgress_eq]
      rfl
  · intro h1 h2
    by_cases hquiet : quiet a = true
    · have := byId_step_quiet_map (fun e => e.disabled) "search-btn" br q a hquiet ha hq
        (fun _ _ => rfl) (fun _ _ => rfl) (fun _ _ => rfl)
      simp only [btnDisabled] at h1 h2
      rw [h1, h2] at this
      simp at this
    · cases a with
      | submit =>
        have := btnDisabled_submit ⟨false⟩ q
        simp only [step] at h2
        rw [h2, h1] at this
        simp at this
      | searchSucceeds j r =>
        simp only [step] at h2
        cases hreq : q.inflight[j]? with
        | none => rw [hreq] at h2; simp only at h2; rw [h1] at h2; simp at h2
        | some req =>
          cases hs : req.success with
          | searchSuccess => exact ⟨j, r, req, rfl, hreq, hs⟩
          | progressSuccess =>
            rw [hreq] at h2
            simp only [hs] at h2
            rw [h1] at h2
            simp at h2
      | timerFires j => simp [quiet] at hquiet
      | searchFails j e => simp [quiet] at hquiet
      | progressSucceeds j r => simp [quiet] at hquiet
      | progressFails j e => simp [quiet] at hquiet
      | userTypes i v => simp [quiet] at hquiet
      | userToggles i b => simp [quiet] at hquiet
  · rw [searchError_unnamed br error q hq]
  · rw [searchError_unnamed br error q hq]
    rfl
  · exact byId_step_quiet_map (fun e => e.disabled) "search-btn" br q (.searchFails k error)
      rfl trivial hq (fun _ _ => rfl) (fun _ _ => rfl) (fun _ _ => rfl)

/-- One submission of the sample page sets the flag; on the busy page the successful
search response resets it. -/
theorem disabled_flag_transitions_witness :
    hasControls samplePage ∧ nameUnbound busyPage "response" = true ∧
    scriptFree sampleBrowser
      (.searchSucceeds 0 ⟨"search-results", "<div>A</div>", "<p>B</p>"⟩) ∧
    btnDisabled (submitHandler ⟨false⟩ samplePage).page = some true ∧
    btnDisabled busyPage = some true ∧
    btnDisabled
        (step sampleBrowser busyPage
          (.searchSucceeds 0 ⟨"search-results", "<div>A</div>", "<p>B</p>"⟩)) =
      some false ∧
    ∃ j r req, Action.searchSucceeds 0 ⟨"search-results", "<div>A</div>", "<p>B</p>"⟩ =
        Action.searchSucceeds j r ∧
      busyPage.inflight[j]? = some req ∧ req.success = SuccessCallback.searchSuccess :=
  ⟨by decide, by decide, trivial,
    (disabled_flag_transitions sampleBrowser ⟨false⟩ samplePage busyPage
      (.searchSucceeds 0 ⟨"search-results", "<div>A</div>", "<p>B</p>"⟩) "timeout" 0
      (by decide) (by decide) trivial).1.1,
    by decide, by decide,
    (disabled_flag_transitions sampleBrowser ⟨false⟩ samplePage busyPage
      (.searchSucceeds 0 ⟨"search-results", "<div>A</div>", "<p>B</p>"⟩) "timeout" 0
      (by decide) (by decide) trivial).2.1 (by decide) (by decide)⟩

/-! ## A submission and its successful response -/

/-- C8 fails as stated, in two ways.  For a response whose id is empty line 36 throws on
the selector '#', lines 38-41 are not reached, and the page stays busy.  After two
submissions the successful response to the first enables the control while the second
search is still in flight. -/
theorem submit_then_success_restores_page_counterexample :
    ((submitHandler ⟨false⟩ samplePage).page = busyPage ∧
      searchSuccess sampleBrowser ⟨"", "<div>A</div>", "<p>B</p>"⟩ busyPage =
        (busyPage, Completion.threw JSError.syntaxError) ∧
      btnDisabled busyPage = some true) ∧
    ((submitHandler ⟨false⟩ busyPage).page = twicePage ∧
      btnDisabled twicePage = some true ∧
      btnDisabled (step sampleBrowser twicePage
        (.searchSucceeds 0 ⟨"search-results", "<div>A</div>", "<p>B</p>"⟩)) = some false ∧
      (step sampleBrowser twicePage
        (.searchSucceeds 0 ⟨"search-results", "<div>A</div>", "<p>B</p>"⟩)).inflight =
        busyPage.inflight) :=
  ⟨⟨submit_samplePage, by decide, by decide⟩, submit_busyPage, by decide, by decide,
    by decide⟩

/-- C8 (amended): on a page that has the two controls and the three regions and on
which the name response is bound neither as a global variable nor through an element,
after a submission and any number of turns other than a successful search response,
progress fragments carrying no script (timers
firing, progress responses, failed searches, further submissions, edits of the form),
the submit control is disabled, the busy indicator has d-flex and both regions are
hidden; the search success callback, for a response whose id is a plain token and
whose fragments carry no script, then runs to its end and leaves the control enabled,
the indicator without d-flex and both regions visible. -/
theorem submit_then_success_restores_page (br : Browser) (event : SubmitEvent) (p : Page)
    (acts : List Action) (r : SearchResponse)
    (hc : hasControls p) (hr : hasRegions p) (hn : nameUnbound p "response" = true)
    (ha : ∀ a ∈ acts, calm br a)
    (ht : isToken r.id = true) (h1 : inert br r.html) (h2 : inert br r.explain_html) :
    (btnDisabled (run br (submitHandler event p).page acts) = some true ∧
      (∃ cs, spinnerClasses (run br (submitHandler event p).page acts) = some cs ∧
        "d-flex" ∈ cs) ∧
      hiddenOf (run br (submitHandler event p).page acts) "search-results" = some true ∧
      hiddenOf (run br (submitHandler event p).page acts) "explain_results" = some true) ∧
    ((searchSuccess br r (run br (submitHandler event p).page acts)).2 = Completion.normal ∧
      btnDisabled (searchSuccess br r (run br (submitHandler event p).page acts)).1 =
        some false ∧
      (∃ cs, spinnerClasses (searchSuccess br r (run br (submitHandler event p).page acts)).1
          = some cs ∧ "d-flex" ∉ cs) ∧
      hiddenOf (searchSuccess br r (run br (submitHandler event p).page acts)).1
        "search-results" = some false ∧
      hiddenOf (searchSuccess br r (run br (submitHandler event p).page acts)).1
        "explain_results" = some false) := by
  have hb0 : busy (submitHandler event p).page := busy_submit event p hc.1 hr
  have hn0 : nameUnbound (submitHandler event p).page "response" = true := by
    rw [nameUnbound_of_keys p _ _ (keys_submit event p) (globals_submit event p)]
    exact hn
  obtain ⟨hb, _⟩ := busy_run br acts _ hb0 hn0 ha
  exact ⟨hb, searchSuccess_of_busy br r _ hb ht h1 h2⟩

/-- The sample page through a submission, a poll and its response, an edit of the
query, a second submission, and the successful search response. -/
theorem submit_then_success_restores_page_witness :
    hasControls samplePage ∧ hasRegions samplePage ∧
    nameUnbound samplePage "response" = true ∧
    (∀ a ∈ [Action.timerFires 0, Action.progressSucceeds 1 ⟨"<span>50%</span>"⟩,
        Action.userTypes "form1" "lean 4", Action.submit], calm sampleBrowser a) ∧
    isToken "search-results" = true ∧
    inert sampleBrowser "<div>A</div>" ∧ inert sampleBrowser "<p>B</p>" ∧
    btnDisabled (run sampleBrowser (submitHandler ⟨false⟩ samplePage).page
      [Action.timerFires 0, Action.progressSucceeds 1 ⟨"<span>50%</span>"⟩,
        Action.userTypes "form1" "lean 4", Action.submit]) = some true ∧
    btnDisabled (searchSuccess sampleBrowser ⟨"search-results", "<div>A</div>", "<p>B</p>"⟩
      (run sampleBrowser (submitHandler ⟨false⟩ samplePage).page
        [Action.timerFires 0, Action.progressSucceeds 1 ⟨"<span>50%</span>"⟩,
          Action.userTypes "form1" "lean 4", Action.submit])).1 = some false :=
  have hcalm : ∀ a ∈ [Action.timerFires 0, Action.progressSucceeds 1 ⟨"<span>50%</span>"⟩,
      Action.userTypes "form1" "lean 4", Action.submit], calm sampleBrowser a := by
    intro a ha
    simp only [List.mem_cons, List.mem_singleton, List.not_mem_nil, or_false] at ha
    rcases ha with rfl | rfl | rfl | rfl
    · trivial
    · exact fun _ => rfl
    · trivial
    · trivial
  ⟨by decide, by decide, by decide, hcalm, by decide, fun _ => rfl, fun _ => rfl,
    (submit_then_success_restores_page sampleBrowser ⟨false⟩ samplePage
      [Action.timerFires 0, Action.progressSucceeds 1 ⟨"<span>50%</span>"⟩,
        Action.userTypes "form1" "lean 4", Action.submit]
      ⟨"search-results", "<div>A</div>", "<p>B</p>"⟩
      (by decide) (by decide) (by decide) hcalm (by decide) (fun _ => rfl)
      (fun _ => rfl)).1.1,
    (submit_then_success_restores_page sampleBrowser ⟨false⟩ samplePage
      [Action.timerFires 0, Action.progressSucceeds 1 ⟨"<span>50%</span>"⟩,
        Action.userTypes "form1" "lean 4", Action.submit]
      ⟨"search-results", "<div>A</div>", "<p>B</p>"⟩
      (by decide) (by decide) (by decide) hcalm (by decide) (fun _ => rfl)
      (fun _ => rfl)).2.2.1⟩

end SearchGPT
